import Mathlib

/-!
Shallow embedding of src/cajero.py (Cajero Pulgarcito) and a verification of
the specification's claims about it.  The in-memory account store (a Python
dict keyed by cedula) is modelled as an insertion-ordered association list
with unique keys; console input is passed in as explicit string arguments;
the ahora() timestamp is passed in as an explicit `fecha` argument; the
filesystem used by the persistence layer is modelled explicitly in its own
section.  Monetary values are Python ints, modelled as Lean Int.
-/

set_option maxHeartbeats 1000000

namespace Cajero

/-- Constante DATA_FILE (src/cajero.py line 11). -/
def DATA_FILE : String := "usuarios_pulgarcito.json"

/-- Constante BACKUP_SUFFIX (src/cajero.py line 12). -/
def BACKUP_SUFFIX : String := ".bak"

/-- Constante SALDO_MINIMO (src/cajero.py line 14). -/
def SALDO_MINIMO : Int := 50000

/-- Constante MULTIPLO (src/cajero.py line 15). -/
def MULTIPLO : Int := 10000

/-- Python values that can appear in an operation record field: the program
stores either strings or integers there (dynamic typing). -/
inductive Valor where
  | str : String → Valor
  | int : Int → Valor
  deriving DecidableEq, Repr

/-- Registro de operacion: the dict built by registrar_operacion
(src/cajero.py lines 153-161).  `destinatario` is absent (none) unless a
truthy destinatario was passed. -/
structure Operacion where
  fecha : String
  tipo : Valor
  monto : Valor
  estado : String
  descripcion : String
  destinatario : Option String
  deriving DecidableEq, Repr

/-- Cuenta de usuario: the dict built by registrar_usuario
(src/cajero.py lines 263-279). -/
structure Cuenta where
  cedula : String
  nombre : String
  apellidos : String
  fecha_nacimiento : String
  edad : Int
  genero : String
  estado_civil : String
  email : String
  fecha_apertura : String
  usuario : String
  clave : String
  saldo_capital : Int
  saldo_prestamo : Int
  deuda : Int
  operaciones : List Operacion
  deriving DecidableEq, Repr

/-- The account store: the Python dict cedula → account, as an
insertion-ordered association list (Python dict keys are unique; theorems
that need this take a Nodup hypothesis on the key list). -/
abbrev Store := List (String × Cuenta)

/-- Lookup data[ced] in the store (none models a missing key). -/
def buscar (data : Store) (ced : String) : Option Cuenta :=
  (data.find? (fun p => p.1 == ced)).map Prod.snd

/-- Apply `f` to the entry with key `ced` (in-place mutation of the dict
value in Python).  Entries with other keys are unchanged. -/
def actualizar (data : Store) (ced : String) (f : Cuenta → Cuenta) : Store :=
  data.map (fun p => if p.1 == ced then (p.1, f p.2) else p)

/-- Sum of saldo_capital over every account in the store. -/
def sumCapital (data : Store) : Int :=
  (data.map (fun p => p.2.saldo_capital)).sum

/-- Accumulate a decimal digit list into a Nat. -/
def digitsToNat (l : List Char) : Nat :=
  l.foldl (fun acc c => 10 * acc + (c.toNat - 48)) 0

/-- Strip leading and trailing whitespace from a character list
(str.strip() on the character level). -/
def stripChars (l : List Char) : List Char :=
  ((l.dropWhile Char.isWhitespace).reverse.dropWhile Char.isWhitespace).reverse

/-- safe_int (src/cajero.py lines 23-28): int(str(s).strip()), returning
none where Python raises ValueError.  Modelled on the usual decimal forms
(optional sign followed by a nonempty digit run, surrounding whitespace
stripped); Python's underscore digit separators and non-ASCII digits are
out of scope for the claims. -/
def safe_int (s : String) : Option Int :=
  let t := stripChars s.toList
  let core := match t with
    | c :: rest => if c = '-' ∨ c = '+' then rest else t
    | [] => t
  if core.length ≠ 0 ∧ core.all Char.isDigit then
    some (if t.headD ' ' = '-' then -(digitsToNat core : Int)
          else (digitsToNat core : Int))
  else none

/-- Append an operation record to an account's log (the
`.setdefault("operaciones", []).append(op)` step). -/
def agregarOp (op : Operacion) (u : Cuenta) : Cuenta :=
  { u with operaciones := u.operaciones ++ [op] }

/-- Build the operation dict of registrar_operacion
(src/cajero.py lines 153-161); a falsy destinatario (None or the empty
string) is omitted. -/
def mkOp (fecha : String) (tipo : Valor) (monto : Valor) (estado : String)
    (descripcion : String) (destinatario : Option String) : Operacion :=
  { fecha := fecha, tipo := tipo, monto := monto, estado := estado,
    descripcion := descripcion,
    destinatario := match destinatario with
      | some d => if d == "" then none else some d
      | none => none }

/-- registrar_operacion (src/cajero.py lines 148-164).  The parameters are
exactly the Python positional parameters (data, cedula, tipo, monto, estado,
descripcion, destinatario), plus the ahora() timestamp `fecha`.  The
guardar_datos call at the end touches only the filesystem, never the
in-memory store, and is modelled in the persistence section.  Python's
setdefault would create a missing entry, but every call site passes a cedula
present in the store, so the embedding updates the existing entry. -/
def registrar_operacion (fecha : String) (data : Store) (cedula : String)
    (tipo : Valor) (monto : Valor) (estado : String) (descripcion : String)
    (destinatario : Option String) : Store :=
  actualizar data cedula (agregarOp (mkOp fecha tipo monto estado descripcion destinatario))

/-- depositar (src/cajero.py lines 305-340).  `entrada` is the raw console
input for the amount; a missing cedula (KeyError in Python, excluded by all
callers) leaves the store unchanged.  The registrar_operacion calls inside
this function omit the `tipo` argument in the source, so each positional
argument shifts one slot left: the raw input or parsed amount lands in the
`tipo` field, the OK/ERROR marker in `monto`, and the human-readable
description in `estado`; the embedding reproduces those shifted arguments
exactly as the source passes them.  The descriptions interpolate the deuda
values read from the account dict at the point of the f-string. -/
def depositar (fecha : String) (data : Store) (ced : String) (entrada : String) : Store :=
  match buscar data ced with
  | none => data
  | some u =>
    match safe_int entrada with
    | none =>
        registrar_operacion fecha data ced (Valor.str entrada) (Valor.str ("ERROR"))
          ("Monto no numerico") ("") none
    | some monto =>
      if monto ≤ 0 ∨ monto % MULTIPLO ≠ 0 then
        registrar_operacion fecha data ced (Valor.int monto) (Valor.str ("ERROR"))
          ("Monto no multiplo o no positivo") ("") none
      else if u.deuda > 0 then
        let deuda := u.deuda
        if monto ≥ deuda then
          let excedente := monto - deuda
          let data1 := actualizar data ced (fun v =>
            { v with deuda := 0, saldo_prestamo := 0,
                     saldo_capital := if excedente > 0 then v.saldo_capital + excedente
                                      else v.saldo_capital })
          registrar_operacion fecha data1 ced (Valor.int monto) (Valor.str ("OK"))
            ("Pago deuda " ++ toString deuda ++ "; excedente " ++ toString excedente)
            ("") none
        else
          let data1 := actualizar data ced (fun v =>
            { v with deuda := v.deuda - monto,
                     saldo_prestamo := max 0 (v.saldo_prestamo - monto) })
          registrar_operacion fecha data1 ced (Valor.int monto) (Valor.str ("OK"))
            ("Abono a deuda; resta " ++ toString (deuda - monto)) ("") none
      else
        let data1 := actualizar data ced (fun v =>
          { v with saldo_capital := v.saldo_capital + monto })
        registrar_operacion fecha data1 ced (Valor.int monto) (Valor.str ("OK"))
          ("Deposito a capital") ("") none

/-- retirar (src/cajero.py lines 342-371), with the same modelling
conventions (and the same shifted registrar_operacion arguments) as
depositar.  The debt check happens before the amount is read. -/
def retirar (fecha : String) (data : Store) (ced : String) (entrada : String) : Store :=
  match buscar data ced with
  | none => data
  | some u =>
    if u.deuda > 0 then
      registrar_operacion fecha data ced (Valor.int 0) (Valor.str ("ERROR"))
        ("Intento retiro con deuda") ("") none
    else
      match safe_int entrada with
      | none =>
          registrar_operacion fecha data ced (Valor.str entrada) (Valor.str ("ERROR"))
            ("Monto no numerico") ("") none
      | some monto =>
        if monto ≤ 0 ∨ monto % MULTIPLO ≠ 0 then
          registrar_operacion fecha data ced (Valor.int monto) (Valor.str ("ERROR"))
            ("Monto no multiplo o no positivo") ("") none
        else if monto > u.saldo_capital then
          registrar_operacion fecha data ced (Valor.int monto) (Valor.str ("ERROR"))
            ("Saldo insuficiente") ("") none
        else if u.saldo_capital - monto < SALDO_MINIMO then
          registrar_operacion fecha data ced (Valor.int monto) (Valor.str ("ERROR"))
            ("Bajo saldo minimo") ("") none
        else
          let data1 := actualizar data ced (fun v =>
            { v with saldo_capital := v.saldo_capital - monto })
          registrar_operacion fecha data1 ced (Valor.int monto) (Valor.str ("OK"))
            ("Retiro exitoso") ("") none

/-- solicitar_prestamo (src/cajero.py lines 373-402), same modelling
conventions.  The cap is four times the capital at request time. -/
def solicitar_prestamo (fecha : String) (data : Store) (ced : String)
    (entrada : String) : Store :=
  match buscar data ced with
  | none => data
  | some u =>
    if u.deuda > 0 then
      registrar_operacion fecha data ced (Valor.int 0) (Valor.str ("ERROR"))
        ("Intento prestamo con deuda") ("") none
    else
      let maximo := u.saldo_capital * 4
      match safe_int entrada with
      | none =>
          registrar_operacion fecha data ced (Valor.str entrada) (Valor.str ("ERROR"))
            ("Monto no numerico") ("") none
      | some monto =>
        if monto ≤ 0 ∨ monto % MULTIPLO ≠ 0 then
          registrar_operacion fecha data ced (Valor.int monto) (Valor.str ("ERROR"))
            ("Monto no multiplo o no positivo") ("") none
        else if monto > maximo then
          registrar_operacion fecha data ced (Valor.int monto) (Valor.str ("ERROR"))
            ("Excede maximo") ("") none
        else
          let data1 := actualizar data ced (fun v =>
            { v with saldo_prestamo := v.saldo_prestamo + monto,
                     deuda := v.deuda + monto,
                     saldo_capital := v.saldo_capital + monto })
          registrar_operacion fecha data1 ced (Valor.int monto) (Valor.str ("OK"))
            ("Prestamo aprobado y acreditado") ("") none

/-- realizar_giro (src/cajero.py lines 404-445), same modelling conventions.
`destino` is the raw destination cedula read from the console.  On success
the source registers one operation on the sender (destinatario := destino)
and one on the destination (destinatario := ced); both calls again omit the
`tipo` argument, so the amount lands in `tipo`, the OK marker in `monto`,
and the Giro/Recepcion text in `estado` with an empty descripcion. -/
def realizar_giro (fecha : String) (data : Store) (ced : String)
    (destino : String) (entrada : String) : Store :=
  match buscar data ced with
  | none => data
  | some u =>
    if u.deuda > 0 then
      registrar_operacion fecha data ced (Valor.int 0) (Valor.str ("ERROR"))
        ("Intento giro con deuda") ("") none
    else if destino == ced then
      registrar_operacion fecha data ced (Valor.int 0) (Valor.str ("ERROR"))
        ("Giro a misma cuenta") ("") none
    else if (buscar data destino).isNone then
      registrar_operacion fecha data ced (Valor.int 0) (Valor.str ("ERROR"))
        ("Destino no existe") ("") none
    else
      match safe_int entrada with
      | none =>
          registrar_operacion fecha data ced (Valor.str entrada) (Valor.str ("ERROR"))
            ("Monto no numerico") ("") none
      | some monto =>
        if monto ≤ 0 ∨ monto % MULTIPLO ≠ 0 then
          registrar_operacion fecha data ced (Valor.int monto) (Valor.str ("ERROR"))
            ("Monto no multiplo") ("") none
        else if monto > u.saldo_capital then
          registrar_operacion fecha data ced (Valor.int monto) (Valor.str ("ERROR"))
            ("Saldo insuficiente") ("") none
        else if u.saldo_capital - monto < SALDO_MINIMO then
          registrar_operacion fecha data ced (Valor.int monto) (Valor.str ("ERROR"))
            ("Bajo saldo minimo post-giro") ("") none
        else
          let data1 := actualizar data ced (fun v =>
            { v with saldo_capital := v.saldo_capital - monto })
          let data2 := actualizar data1 destino (fun v =>
            { v with saldo_capital := v.saldo_capital + monto })
          let data3 := registrar_operacion fecha data2 ced (Valor.int monto)
            (Valor.str ("OK")) ("Giro a " ++ destino) ("") (some destino)
          registrar_operacion fecha data3 destino (Valor.int monto)
            (Valor.str ("OK")) ("Recepcion giro desde " ++ ced) ("") (some ced)

/-- abonar_prestamo (src/cajero.py lines 447-480), same modelling
conventions.  When the account has no debt the function only prints and
returns: nothing is appended and nothing is saved.  The source's
`if monto > u.get("saldo_capital", 0) + 0: pass` is a no-op and imposes no
condition on capital; it is not represented. -/
def abonar_prestamo (fecha : String) (data : Store) (ced : String)
    (entrada : String) : Store :=
  match buscar data ced with
  | none => data
  | some u =>
    if u.deuda ≤ 0 then
      data
    else
      match safe_int entrada with
      | none =>
          registrar_operacion fecha data ced (Valor.str entrada) (Valor.str ("ERROR"))
            ("Monto no numerico") ("") none
      | some monto =>
        if monto ≤ 0 ∨ monto % MULTIPLO ≠ 0 then
          registrar_operacion fecha data ced (Valor.int monto) (Valor.str ("ERROR"))
            ("Monto no multiplo o no positivo") ("") none
        else
          let deuda_prev := u.deuda
          if monto ≥ deuda_prev then
            let excedente := monto - deuda_prev
            let data1 := actualizar data ced (fun v =>
              { v with deuda := 0, saldo_prestamo := 0,
                       saldo_capital := if excedente > 0 then v.saldo_capital + excedente
                                        else v.saldo_capital })
            registrar_operacion fecha data1 ced (Valor.int monto) (Valor.str ("OK"))
              ("Pago total deuda " ++ toString deuda_prev ++ "; excedente " ++
                toString excedente) ("") none
          else
            let data1 := actualizar data ced (fun v =>
              { v with deuda := v.deuda - monto,
                       saldo_prestamo := max 0 (v.saldo_prestamo - monto) })
            registrar_operacion fecha data1 ced (Valor.int monto) (Valor.str ("OK"))
              ("Abono parcial; resta " ++ toString (deuda_prev - monto)) ("") none

/-- registrar_usuario (src/cajero.py lines 170-282), modelling the final
account-creation step (lines 263-281): the interactive while-loops re-prompt
until every field passes its validation, so the embedding receives the field
values as arguments and the loop exit conditions (fresh cedula, saldo at
least SALDO_MINIMO and a multiple of MULTIPLO, ...) appear as hypotheses in
the theorems.  `fechaAp` is the ahora() timestamp used for fecha_apertura
and for the APERTURA operation; Python's `data[ced] = {...}` on a fresh key
appends the entry in insertion order.  This call site does pass all
positional arguments of registrar_operacion, so the APERTURA record is
well-formed. -/
def registrar_usuario (data : Store) (ced nombre apellidos fn : String)
    (edad : Int) (genero estadoCivil email usuario clave : String)
    (monto : Int) (fechaAp : String) : Store :=
  let data1 : Store := data ++ [(ced,
    { cedula := ced, nombre := nombre, apellidos := apellidos,
      fecha_nacimiento := fn, edad := edad, genero := genero,
      estado_civil := estadoCivil, email := email, fecha_apertura := fechaAp,
      usuario := usuario, clave := clave,
      saldo_capital := monto, saldo_prestamo := 0, deuda := 0,
      operaciones := [] })]
  registrar_operacion fechaAp data1 ced (Valor.str ("APERTURA")) (Valor.int monto)
    ("OK") ("Apertura de cuenta") none

/-- Una operacion del Ledger Engine sobre la sesion activa
(menu_usuario options 2-6), with the raw console inputs it reads. -/
inductive OpCajero where
  | deposito (entrada : String)
  | retiro (entrada : String)
  | prestamo (entrada : String)
  | giro (destino : String) (entrada : String)
  | abono (entrada : String)
  deriving DecidableEq, Repr

/-- Dispatch of the five Ledger Engine operations (menu_usuario,
src/cajero.py lines 624-633). -/
def aplicar_op (fecha : String) (data : Store) (ced : String) : OpCajero → Store
  | OpCajero.deposito entrada => depositar fecha data ced entrada
  | OpCajero.retiro entrada => retirar fecha data ced entrada
  | OpCajero.prestamo entrada => solicitar_prestamo fecha data ced entrada
  | OpCajero.giro destino entrada => realizar_giro fecha data ced destino entrada
  | OpCajero.abono entrada => abonar_prestamo fecha data ced entrada

/-! Association-list lemmas about the store primitives. -/

/-- Python dict keys are unique; store states produced by the program always
satisfy this. -/
abbrev ClavesUnicas (data : Store) : Prop := (data.map Prod.fst).Nodup

theorem buscar_cons_self (p : String × Cuenta) (rest : Store) (ced : String)
    (h : p.1 = ced) : buscar (p :: rest) ced = some p.2 := by
  unfold buscar
  rw [List.find?_cons_of_pos _ (by simp [h])]
  rfl

theorem buscar_cons_ne (p : String × Cuenta) (rest : Store) (ced : String)
    (h : p.1 ≠ ced) : buscar (p :: rest) ced = buscar rest ced := by
  unfold buscar
  rw [List.find?_cons_of_neg _ (by simp [h])]

theorem actualizar_cons (p : String × Cuenta) (rest : Store) (ced : String)
    (f : Cuenta → Cuenta) :
    actualizar (p :: rest) ced f =
      (if p.1 == ced then (p.1, f p.2) else p) :: actualizar rest ced f := rfl

theorem sumCapital_cons (p : String × Cuenta) (rest : Store) :
    sumCapital (p :: rest) = p.2.saldo_capital + sumCapital rest := by
  simp [sumCapital]

theorem actualizar_keys (data : Store) (ced : String) (f : Cuenta → Cuenta) :
    (actualizar data ced f).map Prod.fst = data.map Prod.fst := by
  unfold actualizar
  rw [List.map_map]
  apply List.map_congr_left
  intro p _
  by_cases h : p.1 = ced <;> simp [h]

theorem clavesUnicas_actualizar (data : Store) (ced : String) (f : Cuenta → Cuenta)
    (hnd : ClavesUnicas data) : ClavesUnicas (actualizar data ced f) := by
  unfold ClavesUnicas
  rw [actualizar_keys]
  exact hnd

theorem actualizar_of_not_mem (data : Store) (ced : String) (f : Cuenta → Cuenta)
    (h : ced ∉ data.map Prod.fst) : actualizar data ced f = data := by
  unfold actualizar
  conv_rhs => rw [← List.map_id data]
  apply List.map_congr_left
  intro p hp
  have h1 : p.1 ≠ ced := by
    intro hc
    exact h (hc ▸ List.mem_map_of_mem Prod.fst hp)
  simp [h1]

theorem buscar_actualizar_self (data : Store) (ced : String) (f : Cuenta → Cuenta) :
    buscar (actualizar data ced f) ced = (buscar data ced).map f := by
  induction data with
  | nil => rfl
  | cons p rest ih =>
    rw [actualizar_cons]
    by_cases h : p.1 = ced
    · rw [if_pos (by simpa using h)]
      rw [buscar_cons_self (p.1, f p.2) _ _ h, buscar_cons_self p _ _ h]
      rfl
    · rw [if_neg (by simpa using h)]
      rw [buscar_cons_ne _ _ _ h, buscar_cons_ne _ _ _ h]
      exact ih

theorem buscar_actualizar_ne (data : Store) (ced ced' : String) (f : Cuenta → Cuenta)
    (h : ced' ≠ ced) : buscar (actualizar data ced f) ced' = buscar data ced' := by
  induction data with
  | nil => rfl
  | cons p rest ih =>
    rw [actualizar_cons]
    by_cases h1 : p.1 = ced
    · have h2 : p.1 ≠ ced' := by rw [h1]; exact fun hc => h hc.symm
      rw [if_pos (by simpa using h1)]
      rw [buscar_cons_ne (p.1, f p.2) _ _ h2, buscar_cons_ne p _ _ h2]
      exact ih
    · rw [if_neg (by simpa using h1)]
      by_cases h2 : p.1 = ced'
      · rw [buscar_cons_self p _ _ h2, buscar_cons_self p _ _ h2]
      · rw [buscar_cons_ne p _ _ h2, buscar_cons_ne p _ _ h2]
        exact ih

theorem actualizar_comp (data : Store) (ced : String) (f g : Cuenta → Cuenta) :
    actualizar (actualizar data ced f) ced g = actualizar data ced (fun u => g (f u)) := by
  unfold actualizar
  rw [List.map_map]
  apply List.map_congr_left
  intro p _
  by_cases h : p.1 = ced <;> simp [h]

theorem buscar_mem_of_some (data : Store) (ced : String) (u : Cuenta)
    (h : buscar data ced = some u) : (ced, u) ∈ data := by
  unfold buscar at h
  rcases Option.map_eq_some'.mp h with ⟨p, hp, hpu⟩
  have hmem := List.mem_of_find?_eq_some hp
  have hkey : p.1 = ced := by simpa using List.find?_some hp
  have : p = (ced, u) := by
    cases p
    simp_all
  rw [this] at hmem
  exact hmem

theorem eq_of_mem_buscar (data : Store) (ced : String) (u : Cuenta) (q : String × Cuenta)
    (hnd : ClavesUnicas data) (hq : q ∈ data) (hk : q.1 = ced)
    (hb : buscar data ced = some u) : q.2 = u := by
  induction data with
  | nil => cases hq
  | cons p rest ih =>
    unfold ClavesUnicas at hnd
    simp only [List.map_cons, List.nodup_cons] at hnd
    rcases List.mem_cons.mp hq with hq1 | hq1
    · subst hq1
      rw [buscar_cons_self _ _ _ hk] at hb
      exact Option.some.inj hb
    · have hpk : p.1 ≠ ced := by
        intro hpc
        exact hnd.1 (by
          rw [hpc, ← hk]
          exact List.mem_map_of_mem Prod.fst hq1)
      rw [buscar_cons_ne _ _ _ hpk] at hb
      exact ih hnd.2 hq1 hb

theorem forall_mem_actualizar (data : Store) (ced : String) (f : Cuenta → Cuenta)
    (P : Cuenta → Prop) (h : ∀ p ∈ data, P p.2) (hf : ∀ v, P v → P (f v)) :
    ∀ p ∈ actualizar data ced f, P p.2 := by
  intro p hp
  rcases List.mem_map.mp hp with ⟨q, hq, hqp⟩
  by_cases hk : q.1 = ced
  · rw [if_pos (by simpa using hk)] at hqp
    rw [← hqp]
    exact hf _ (h q hq)
  · rw [if_neg (by simpa using hk)] at hqp
    rw [← hqp]
    exact h q hq

theorem forall_mem_actualizar_buscar (data : Store) (ced : String) (f : Cuenta → Cuenta)
    (u : Cuenta) (P : Cuenta → Prop) (hnd : ClavesUnicas data)
    (hb : buscar data ced = some u) (h : ∀ p ∈ data, P p.2) (hfu : P (f u)) :
    ∀ p ∈ actualizar data ced f, P p.2 := by
  intro p hp
  rcases List.mem_map.mp hp with ⟨q, hq, hqp⟩
  by_cases hk : q.1 = ced
  · have hqu : q.2 = u := eq_of_mem_buscar data ced u q hnd hq hk hb
    rw [if_pos (by simpa using hk)] at hqp
    rw [← hqp, hqu]
    exact hfu
  · rw [if_neg (by simpa using hk)] at hqp
    rw [← hqp]
    exact h q hq

theorem sumCapital_actualizar_congr (data : Store) (ced : String) (f : Cuenta → Cuenta)
    (hf : ∀ v, (f v).saldo_capital = v.saldo_capital) :
    sumCapital (actualizar data ced f) = sumCapital data := by
  unfold sumCapital actualizar
  rw [List.map_map]
  congr 1
  apply List.map_congr_left
  intro p _
  by_cases h : p.1 = ced <;> simp [h, hf]

theorem sumCapital_actualizar_of_buscar (data : Store) (ced : String)
    (f : Cuenta → Cuenta) (u : Cuenta) (hnd : ClavesUnicas data)
    (hb : buscar data ced = some u) :
    sumCapital (actualizar data ced f) =
      sumCapital data - u.saldo_capital + (f u).saldo_capital := by
  induction data with
  | nil => simp [buscar] at hb
  | cons p rest ih =>
    unfold ClavesUnicas at hnd
    simp only [List.map_cons, List.nodup_cons] at hnd
    rw [actualizar_cons]
    by_cases h : p.1 = ced
    · rw [buscar_cons_self _ _ _ h] at hb
      have hu : p.2 = u := Option.some.inj hb
      have hrest : actualizar rest ced f = rest :=
        actualizar_of_not_mem _ _ _ (h ▸ hnd.1)
      rw [if_pos (by simpa using h), hrest, sumCapital_cons, sumCapital_cons]
      simp only [hu]
      ring
    · rw [buscar_cons_ne _ _ _ h] at hb
      rw [if_neg (by simpa using h), sumCapital_cons, sumCapital_cons,
        ih hnd.2 hb]
      ring

theorem buscar_append_self (data : Store) (ced : String) (c : Cuenta)
    (h : buscar data ced = none) : buscar (data ++ [(ced, c)]) ced = some c := by
  induction data with
  | nil => simp [buscar, List.find?]
  | cons p rest ih =>
    by_cases h1 : p.1 = ced
    · rw [buscar_cons_self _ _ _ h1] at h
      cases h
    · rw [buscar_cons_ne _ _ _ h1] at h
      rw [List.cons_append, buscar_cons_ne _ _ _ h1]
      exact ih h

/-! Field lemmas for the log-append helper. -/

@[simp] theorem agregarOp_saldo_capital (op : Operacion) (v : Cuenta) :
    (agregarOp op v).saldo_capital = v.saldo_capital := rfl

@[simp] theorem agregarOp_saldo_prestamo (op : Operacion) (v : Cuenta) :
    (agregarOp op v).saldo_prestamo = v.saldo_prestamo := rfl

@[simp] theorem agregarOp_deuda (op : Operacion) (v : Cuenta) :
    (agregarOp op v).deuda = v.deuda := rfl

@[simp] theorem agregarOp_operaciones (op : Operacion) (v : Cuenta) :
    (agregarOp op v).operaciones = v.operaciones ++ [op] := rfl

/-! Preservation of the strong ledger invariant `deuda = saldo_prestamo`
(the inductive form of claim C1; it holds at account creation and every
update path moves the two fields together). -/

theorem depositar_inv_dp (fecha : String) (data : Store) (ced entrada : String)
    (hnd : ClavesUnicas data)
    (h : ∀ p ∈ data, p.2.deuda = p.2.saldo_prestamo) :
    ∀ p ∈ depositar fecha data ced entrada, p.2.deuda = p.2.saldo_prestamo := by
  cases hb : buscar data ced with
  | none => simp only [depositar, hb]; exact h
  | some u =>
    have hQu : u.deuda = u.saldo_prestamo := h _ (buscar_mem_of_some data ced u hb)
    cases hsi : safe_int entrada with
    | none =>
        simp only [depositar, hb, hsi, registrar_operacion]
        exact forall_mem_actualizar _ _ _ (fun v => v.deuda = v.saldo_prestamo) h
          (fun v hv => by simpa using hv)
    | some monto =>
        simp only [depositar, hb, hsi, registrar_operacion]
        by_cases h1 : monto ≤ 0 ∨ monto % MULTIPLO ≠ 0
        · rw [if_pos h1]
          exact forall_mem_actualizar _ _ _ (fun v => v.deuda = v.saldo_prestamo) h
            (fun v hv => by simpa using hv)
        · rw [if_neg h1]
          by_cases h2 : u.deuda > 0
          · rw [if_pos h2]
            by_cases h3 : monto ≥ u.deuda
            · rw [if_pos h3, actualizar_comp]
              refine forall_mem_actualizar_buscar data ced _ u
                (fun v => v.deuda = v.saldo_prestamo) hnd hb h ?_
              simp [agregarOp]
            · rw [if_neg h3, actualizar_comp]
              refine forall_mem_actualizar_buscar data ced _ u
                (fun v => v.deuda = v.saldo_prestamo) hnd hb h ?_
              push_neg at h3
              have hx : (0:Int) ≤ u.saldo_prestamo - monto := by rw [← hQu]; omega
              simp only [agregarOp_deuda, agregarOp_saldo_prestamo]
              show u.deuda - monto = max 0 (u.saldo_prestamo - monto)
              rw [hQu, max_eq_right hx]
          · rw [if_neg h2, actualizar_comp]
            refine forall_mem_actualizar_buscar data ced _ u
              (fun v => v.deuda = v.saldo_prestamo) hnd hb h ?_
            simpa using hQu

theorem retirar_inv_dp (fecha : String) (data : Store) (ced entrada : String)
    (h : ∀ p ∈ data, p.2.deuda = p.2.saldo_prestamo) :
    ∀ p ∈ retirar fecha data ced entrada, p.2.deuda = p.2.saldo_prestamo := by
  have hlog : ∀ (v : Cuenta), v.deuda = v.saldo_prestamo →
      ∀ (op : Operacion), (agregarOp op v).deuda = (agregarOp op v).saldo_prestamo := by
    intro v hv op
    simpa using hv
  cases hb : buscar data ced with
  | none => simp only [retirar, hb]; exact h
  | some u =>
    simp only [retirar, hb, registrar_operacion]
    by_cases h0 : u.deuda > 0
    · rw [if_pos h0]
      exact forall_mem_actualizar _ _ _ (fun v => v.deuda = v.saldo_prestamo) h
        (fun v hv => hlog v hv _)
    · rw [if_neg h0]
      cases hsi : safe_int entrada with
      | none =>
          simp only [hsi]
          exact forall_mem_actualizar _ _ _ (fun v => v.deuda = v.saldo_prestamo) h
            (fun v hv => hlog v hv _)
      | some monto =>
          simp only [hsi]
          by_cases h1 : monto ≤ 0 ∨ monto % MULTIPLO ≠ 0
          · rw [if_pos h1]
            exact forall_mem_actualizar _ _ _ (fun v => v.deuda = v.saldo_prestamo) h
              (fun v hv => hlog v hv _)
          · rw [if_neg h1]
            by_cases h2 : monto > u.saldo_capital
            · rw [if_pos h2]
              exact forall_mem_actualizar _ _ _ (fun v => v.deuda = v.saldo_prestamo) h
                (fun v hv => hlog v hv _)
            · rw [if_neg h2]
              by_cases h3 : u.saldo_capital - monto < SALDO_MINIMO
              · rw [if_pos h3]
                exact forall_mem_actualizar _ _ _ (fun v => v.deuda = v.saldo_prestamo) h
                  (fun v hv => hlog v hv _)
              · rw [if_neg h3, actualizar_comp]
                exact forall_mem_actualizar _ _ _ (fun v => v.deuda = v.saldo_prestamo) h
                  (fun v hv => by simpa using hv)

theorem solicitar_prestamo_inv_dp (fecha : String) (data : Store) (ced entrada : String)
    (h : ∀ p ∈ data, p.2.deuda = p.2.saldo_prestamo) :
    ∀ p ∈ solicitar_prestamo fecha data ced entrada, p.2.deuda = p.2.saldo_prestamo := by
  cases hb : buscar data ced with
  | none => simp only [solicitar_prestamo, hb]; exact h
  | some u =>
    simp only [solicitar_prestamo, hb, registrar_operacion]
    by_cases h0 : u.deuda > 0
    · rw [if_pos h0]
      exact forall_mem_actualizar _ _ _ (fun v => v.deuda = v.saldo_prestamo) h
        (fun v hv => by simpa using hv)
    · rw [if_neg h0]
      cases hsi : safe_int entrada with
      | none =>
          simp only [hsi]
          exact forall_mem_actualizar _ _ _ (fun v => v.deuda = v.saldo_prestamo) h
            (fun v hv => by simpa using hv)
      | some monto =>
          simp only [hsi]
          by_cases h1 : monto ≤ 0 ∨ monto % MULTIPLO ≠ 0
          · rw [if_pos h1]
            exact forall_mem_actualizar _ _ _ (fun v => v.deuda = v.saldo_prestamo) h
              (fun v hv => by simpa using hv)
          · rw [if_neg h1]
            by_cases h2 : monto > u.saldo_capital * 4
            · rw [if_pos h2]
              exact forall_mem_actualizar _ _ _ (fun v => v.deuda = v.saldo_prestamo) h
                (fun v hv => by simpa using hv)
            · rw [if_neg h2, actualizar_comp]
              refine forall_mem_actualizar _ _ _ (fun v => v.deuda = v.saldo_prestamo) h
                (fun v hv => ?_)
              simp only [agregarOp_deuda, agregarOp_saldo_prestamo]
              show v.deuda + monto = v.saldo_prestamo + monto
              rw [hv]

theorem realizar_giro_inv_dp (fecha : String) (data : Store) (ced destino entrada : String)
    (h : ∀ p ∈ data, p.2.deuda = p.2.saldo_prestamo) :
    ∀ p ∈ realizar_giro fecha data ced destino entrada, p.2.deuda = p.2.saldo_prestamo := by
  have hP : ∀ (dd : Store) (c : String) (f : Cuenta → Cuenta)
      (hf : ∀ v, v.deuda = v.saldo_prestamo → (f v).deuda = (f v).saldo_prestamo),
      (∀ p ∈ dd, p.2.deuda = p.2.saldo_prestamo) →
      ∀ p ∈ actualizar dd c f, p.2.deuda = p.2.saldo_prestamo := by
    intro dd c f hf hdd
    exact forall_mem_actualizar _ _ _ (fun v => v.deuda = v.saldo_prestamo) hdd hf
  cases hb : buscar data ced with
  | none => simp only [realizar_giro, hb]; exact h
  | some u =>
    simp only [realizar_giro, hb, registrar_operacion]
    by_cases h0 : u.deuda > 0
    · rw [if_pos h0]
      exact hP _ _ _ (fun v hv => by simpa using hv) h
    · rw [if_neg h0]
      by_cases hdc : destino == ced
      · rw [if_pos hdc]
        exact hP _ _ _ (fun v hv => by simpa using hv) h
      · rw [if_neg hdc]
        by_cases hdm : (buscar data destino).isNone
        · rw [if_pos hdm]
          exact hP _ _ _ (fun v hv => by simpa using hv) h
        · rw [if_neg hdm]
          cases hsi : safe_int entrada with
          | none =>
              simp only [hsi]
              exact hP _ _ _ (fun v hv => by simpa using hv) h
          | some monto =>
              simp only [hsi]
              by_cases h1 : monto ≤ 0 ∨ monto % MULTIPLO ≠ 0
              · rw [if_pos h1]
                exact hP _ _ _ (fun v hv => by simpa using hv) h
              · rw [if_neg h1]
                by_cases h2 : monto > u.saldo_capital
                · rw [if_pos h2]
                  exact hP _ _ _ (fun v hv => by simpa using hv) h
                · rw [if_neg h2]
                  by_cases h3 : u.saldo_capital - monto < SALDO_MINIMO
                  · rw [if_pos h3]
                    exact hP _ _ _ (fun v hv => by simpa using hv) h
                  · rw [if_neg h3]
                    apply hP _ _ _ (fun v hv => by simpa using hv)
                    apply hP _ _ _ (fun v hv => by simpa using hv)
                    apply hP _ _ _ (fun v hv => by simpa using hv)
                    apply hP _ _ _ (fun v hv => by simpa using hv)
                    exact h

theorem abonar_prestamo_inv_dp (fecha : String) (data : Store) (ced entrada : String)
    (hnd : ClavesUnicas data)
    (h : ∀ p ∈ data, p.2.deuda = p.2.saldo_prestamo) :
    ∀ p ∈ abonar_prestamo fecha data ced entrada, p.2.deuda = p.2.saldo_prestamo := by
  cases hb : buscar data ced with
  | none => simp only [abonar_prestamo, hb]; exact h
  | some u =>
    have hQu : u.deuda = u.saldo_prestamo := h _ (buscar_mem_of_some data ced u hb)
    simp only [abonar_prestamo, hb, registrar_operacion]
    by_cases h0 : u.deuda ≤ 0
    · rw [if_pos h0]; exact h
    · rw [if_neg h0]
      cases hsi : safe_int entrada with
      | none =>
          simp only [hsi]
          exact forall_mem_actualizar _ _ _ (fun v => v.deuda = v.saldo_prestamo) h
            (fun v hv => by simpa using hv)
      | some monto =>
          simp only [hsi]
          by_cases h1 : monto ≤ 0 ∨ monto % MULTIPLO ≠ 0
          · rw [if_pos h1]
            exact forall_mem_actualizar _ _ _ (fun v => v.deuda = v.saldo_prestamo) h
              (fun v hv => by simpa using hv)
          · rw [if_neg h1]
            by_cases h3 : monto ≥ u.deuda
            · rw [if_pos h3, actualizar_comp]
              refine forall_mem_actualizar_buscar data ced _ u
                (fun v => v.deuda = v.saldo_prestamo) hnd hb h ?_
              simp [agregarOp]
            · rw [if_neg h3, actualizar_comp]
              refine forall_mem_actualizar_buscar data ced _ u
                (fun v => v.deuda = v.saldo_prestamo) hnd hb h ?_
              push_neg at h3
              have hx : (0:Int) ≤ u.saldo_prestamo - monto := by rw [← hQu]; omega
              simp only [agregarOp_deuda, agregarOp_saldo_prestamo]
              show u.deuda - monto = max 0 (u.saldo_prestamo - monto)
              rw [hQu, max_eq_right hx]

/-- C1: for every account in the store and every Ledger Engine operation
(deposit, withdraw, loan request, loan repayment, transfer), after the
operation completes the account satisfies debt == 0 iff loan_balance == 0.
The store hypothesis `deuda = saldo_prestamo` is the inductive form of the
invariant: it holds for every account the registration flow creates (claim
C9) and, as the conclusion's first conjunct shows, is re-established by
every operation, so it holds of every reachable store. -/
theorem claim_C1_deuda_cero_sii_prestamo_cero
    (fecha : String) (data : Store) (ced : String) (op : OpCajero)
    (hnd : ClavesUnicas data)
    (h : ∀ p ∈ data, p.2.deuda = p.2.saldo_prestamo) :
    ∀ p ∈ aplicar_op fecha data ced op,
      p.2.deuda = p.2.saldo_prestamo ∧ (p.2.deuda = 0 ↔ p.2.saldo_prestamo = 0) := by
  have hpres : ∀ p ∈ aplicar_op fecha data ced op, p.2.deuda = p.2.saldo_prestamo := by
    cases op with
    | deposito entrada => exact depositar_inv_dp fecha data ced entrada hnd h
    | retiro entrada => exact retirar_inv_dp fecha data ced entrada h
    | prestamo entrada => exact solicitar_prestamo_inv_dp fecha data ced entrada h
    | giro destino entrada => exact realizar_giro_inv_dp fecha data ced destino entrada h
    | abono entrada => exact abonar_prestamo_inv_dp fecha data ced entrada hnd h
  intro p hp
  refine ⟨hpres p hp, ?_⟩
  rw [hpres p hp]

/-! Log growth: every branch of every operation appends exactly one record
to the acting account's log, except repaying with no debt. -/

theorem buscar_registrar_len (fecha : String) (data : Store) (ced : String)
    (t m : Valor) (e d : String) (dst : Option String) (u : Cuenta)
    (hb : buscar data ced = some u) :
    (buscar (registrar_operacion fecha data ced t m e d dst) ced).map
        (fun w => w.operaciones.length) = some (u.operaciones.length + 1) := by
  unfold registrar_operacion
  rw [buscar_actualizar_self, hb]
  simp

theorem buscar_actualizar_registrar_len (fecha : String) (data : Store) (ced : String)
    (g : Cuenta → Cuenta) (t m : Valor) (e d : String) (dst : Option String) (u : Cuenta)
    (hb : buscar data ced = some u) (hg : ∀ v, (g v).operaciones = v.operaciones) :
    (buscar (registrar_operacion fecha (actualizar data ced g) ced t m e d dst) ced).map
        (fun w => w.operaciones.length) = some (u.operaciones.length + 1) := by
  unfold registrar_operacion
  rw [actualizar_comp, buscar_actualizar_self, hb]
  simp [hg]

theorem depositar_registra_una (fecha : String) (data : Store) (ced entrada : String)
    (u : Cuenta) (hb : buscar data ced = some u) :
    (buscar (depositar fecha data ced entrada) ced).map (fun w => w.operaciones.length)
      = some (u.operaciones.length + 1) := by
  cases hsi : safe_int entrada with
  | none =>
      simp only [depositar, hb, hsi]
      exact buscar_registrar_len _ _ _ _ _ _ _ _ _ hb
  | some monto =>
      simp only [depositar, hb, hsi]
      by_cases h1 : monto ≤ 0 ∨ monto % MULTIPLO ≠ 0
      · rw [if_pos h1]
        exact buscar_registrar_len _ _ _ _ _ _ _ _ _ hb
      · rw [if_neg h1]
        by_cases h2 : u.deuda > 0
        · rw [if_pos h2]
          by_cases h3 : monto ≥ u.deuda
          · rw [if_pos h3]
            exact buscar_actualizar_registrar_len _ _ _ _ _ _ _ _ _ _ hb (fun v => rfl)
          · rw [if_neg h3]
            exact buscar_actualizar_registrar_len _ _ _ _ _ _ _ _ _ _ hb (fun v => rfl)
        · rw [if_neg h2]
          exact buscar_actualizar_registrar_len _ _ _ _ _ _ _ _ _ _ hb (fun v => rfl)

theorem retirar_registra_una (fecha : String) (data : Store) (ced entrada : String)
    (u : Cuenta) (hb : buscar data ced = some u) :
    (buscar (retirar fecha data ced entrada) ced).map (fun w => w.operaciones.length)
      = some (u.operaciones.length + 1) := by
  simp only [retirar, hb]
  by_cases h0 : u.deuda > 0
  · rw [if_pos h0]
    exact buscar_registrar_len _ _ _ _ _ _ _ _ _ hb
  · rw [if_neg h0]
    cases hsi : safe_int entrada with
    | none =>
        simp only [hsi]
        exact buscar_registrar_len _ _ _ _ _ _ _ _ _ hb
    | some monto =>
        simp only [hsi]
        by_cases h1 : monto ≤ 0 ∨ monto % MULTIPLO ≠ 0
        · rw [if_pos h1]
          exact buscar_registrar_len _ _ _ _ _ _ _ _ _ hb
        · rw [if_neg h1]
          by_cases h2 : monto > u.saldo_capital
          · rw [if_pos h2]
            exact buscar_registrar_len _ _ _ _ _ _ _ _ _ hb
          · rw [if_neg h2]
            by_cases h3 : u.saldo_capital - monto < SALDO_MINIMO
            · rw [if_pos h3]
              exact buscar_registrar_len _ _ _ _ _ _ _ _ _ hb
            · rw [if_neg h3]
              exact buscar_actualizar_registrar_len _ _ _ _ _ _ _ _ _ _ hb (fun v => rfl)

theorem solicitar_prestamo_registra_una (fecha : String) (data : Store)
    (ced entrada : String) (u : Cuenta) (hb : buscar data ced = some u) :
    (buscar (solicitar_prestamo fecha data ced entrada) ced).map
        (fun w => w.operaciones.length) = some (u.operaciones.length + 1) := by
  simp only [solicitar_prestamo, hb]
  by_cases h0 : u.deuda > 0
  · rw [if_pos h0]
    exact buscar_registrar_len _ _ _ _ _ _ _ _ _ hb
  · rw [if_neg h0]
    cases hsi : safe_int entrada with
    | none =>
        simp only [hsi]
        exact buscar_registrar_len _ _ _ _ _ _ _ _ _ hb
    | some monto =>
        simp only [hsi]
        by_cases h1 : monto ≤ 0 ∨ monto % MULTIPLO ≠ 0
        · rw [if_pos h1]
          exact buscar_registrar_len _ _ _ _ _ _ _ _ _ hb
        · rw [if_neg h1]
          by_cases h2 : monto > u.saldo_capital * 4
          · rw [if_pos h2]
            exact buscar_registrar_len _ _ _ _ _ _ _ _ _ hb
          · rw [if_neg h2]
            exact buscar_actualizar_registrar_len _ _ _ _ _ _ _ _ _ _ hb (fun v => rfl)

theorem realizar_giro_registra_una (fecha : String) (data : Store)
    (ced destino entrada : String) (u : Cuenta) (hb : buscar data ced = some u) :
    (buscar (realizar_giro fecha data ced destino entrada) ced).map
        (fun w => w.operaciones.length) = some (u.operaciones.length + 1) := by
  simp only [realizar_giro, hb]
  by_cases h0 : u.deuda > 0
  · rw [if_pos h0]
    exact buscar_registrar_len _ _ _ _ _ _ _ _ _ hb
  · rw [if_neg h0]
    by_cases hdc : destino == ced
    · rw [if_pos hdc]
      exact buscar_registrar_len _ _ _ _ _ _ _ _ _ hb
    · rw [if_neg hdc]
      have hdc' : destino ≠ ced := by simpa using hdc
      by_cases hdm : (buscar data destino).isNone
      · rw [if_pos hdm]
        exact buscar_registrar_len _ _ _ _ _ _ _ _ _ hb
      · rw [if_neg hdm]
        cases hsi : safe_int entrada with
        | none =>
            simp only [hsi]
            exact buscar_registrar_len _ _ _ _ _ _ _ _ _ hb
        | some monto =>
            simp only [hsi]
            by_cases h1 : monto ≤ 0 ∨ monto % MULTIPLO ≠ 0
            · rw [if_pos h1]
              exact buscar_registrar_len _ _ _ _ _ _ _ _ _ hb
            · rw [if_neg h1]
              by_cases h2 : monto > u.saldo_capital
              · rw [if_pos h2]
                exact buscar_registrar_len _ _ _ _ _ _ _ _ _ hb
              · rw [if_neg h2]
                by_cases h3 : u.saldo_capital - monto < SALDO_MINIMO
                · rw [if_pos h3]
                  exact buscar_registrar_len _ _ _ _ _ _ _ _ _ hb
                · rw [if_neg h3]
                  unfold registrar_operacion
                  rw [buscar_actualizar_ne _ destino ced _ (fun hc => hdc' hc.symm),
                    buscar_actualizar_self,
                    buscar_actualizar_ne _ destino ced _ (fun hc => hdc' hc.symm),
                    buscar_actualizar_self, hb]
                  simp

theorem abonar_prestamo_registra_una (fecha : String) (data : Store)
    (ced entrada : String) (u : Cuenta) (hb : buscar data ced = some u)
    (hdeuda : 0 < u.deuda) :
    (buscar (abonar_prestamo fecha data ced entrada) ced).map
        (fun w => w.operaciones.length) = some (u.operaciones.length + 1) := by
  simp only [abonar_prestamo, hb]
  rw [if_neg (by omega)]
  cases hsi : safe_int entrada with
  | none =>
      simp only [hsi]
      exact buscar_registrar_len _ _ _ _ _ _ _ _ _ hb
  | some monto =>
      simp only [hsi]
      by_cases h1 : monto ≤ 0 ∨ monto % MULTIPLO ≠ 0
      · rw [if_pos h1]
        exact buscar_registrar_len _ _ _ _ _ _ _ _ _ hb
      · rw [if_neg h1]
        by_cases h3 : monto ≥ u.deuda
        · rw [if_pos h3]
          exact buscar_actualizar_registrar_len _ _ _ _ _ _ _ _ _ _ hb (fun v => rfl)
        · rw [if_neg h3]
          exact buscar_actualizar_registrar_len _ _ _ _ _ _ _ _ _ _ hb (fun v => rfl)

/-- C5 (amended): every branch of deposit, withdraw, loan request and
transfer — success or rejection — appends exactly one Operation record to
the acting account's log, and loan repayment does so in every branch except
when attempted with no outstanding debt (that branch only prints and
appends nothing, as the counterexample shows).  Because the
registrar_operacion call sites omit the tipo argument (claim C2), the
OK/ERROR marker of the appended record sits in its monto field rather than
estado. -/
theorem claim_C5_toda_rama_registra (fecha : String) (data : Store) (ced : String)
    (op : OpCajero) (u : Cuenta) (hb : buscar data ced = some u)
    (habono : ∀ e, op = OpCajero.abono e → 0 < u.deuda) :
    (buscar (aplicar_op fecha data ced op) ced).map (fun w => w.operaciones.length)
      = some (u.operaciones.length + 1) := by
  cases op with
  | deposito entrada => exact depositar_registra_una fecha data ced entrada u hb
  | retiro entrada => exact retirar_registra_una fecha data ced entrada u hb
  | prestamo entrada => exact solicitar_prestamo_registra_una fecha data ced entrada u hb
  | giro destino entrada => exact realizar_giro_registra_una fecha data ced destino entrada u hb
  | abono entrada =>
      exact abonar_prestamo_registra_una fecha data ced entrada u hb
        (habono entrada rfl)

/-! Non-negativity of capital, and the rejection guards of withdrawals and
outgoing transfers. -/

theorem buscar_registrar_monetario (fecha : String) (data : Store) (ced : String)
    (t m : Valor) (e d : String) (dst : Option String) (u : Cuenta)
    (hb : buscar data ced = some u) :
    (buscar (registrar_operacion fecha data ced t m e d dst) ced).map
        (fun w => (w.saldo_capital, w.saldo_prestamo, w.deuda))
      = some (u.saldo_capital, u.saldo_prestamo, u.deuda) := by
  unfold registrar_operacion
  rw [buscar_actualizar_self, hb]
  simp

theorem depositar_nonneg (fecha : String) (data : Store) (ced entrada : String)
    (h : ∀ p ∈ data, 0 ≤ p.2.saldo_capital) :
    ∀ p ∈ depositar fecha data ced entrada, 0 ≤ p.2.saldo_capital := by
  cases hb : buscar data ced with
  | none => simp only [depositar, hb]; exact h
  | some u =>
    cases hsi : safe_int entrada with
    | none =>
        simp only [depositar, hb, hsi, registrar_operacion]
        exact forall_mem_actualizar _ _ _ (fun v => 0 ≤ v.saldo_capital) h
          (fun v hv => by simpa using hv)
    | some monto =>
        simp only [depositar, hb, hsi, registrar_operacion]
        by_cases h1 : monto ≤ 0 ∨ monto % MULTIPLO ≠ 0
        · rw [if_pos h1]
          exact forall_mem_actualizar _ _ _ (fun v => 0 ≤ v.saldo_capital) h
            (fun v hv => by simpa using hv)
        · rw [if_neg h1]
          push_neg at h1
          by_cases h2 : u.deuda > 0
          · rw [if_pos h2]
            by_cases h3 : monto ≥ u.deuda
            · rw [if_pos h3, actualizar_comp]
              refine forall_mem_actualizar _ _ _ (fun v => 0 ≤ v.saldo_capital) h
                (fun v hv => ?_)
              simp only [agregarOp_saldo_capital]
              show (0:Int) ≤ if monto - u.deuda > 0 then v.saldo_capital + (monto - u.deuda)
                  else v.saldo_capital
              split_ifs with hx <;> omega
            · rw [if_neg h3, actualizar_comp]
              refine forall_mem_actualizar _ _ _ (fun v => 0 ≤ v.saldo_capital) h
                (fun v hv => by simpa using hv)
          · rw [if_neg h2, actualizar_comp]
            refine forall_mem_actualizar _ _ _ (fun v => 0 ≤ v.saldo_capital) h
              (fun v hv => ?_)
            simp only [agregarOp_saldo_capital]
            show (0:Int) ≤ v.saldo_capital + monto
            omega

theorem retirar_nonneg (fecha : String) (data : Store) (ced entrada : String)
    (hnd : ClavesUnicas data) (h : ∀ p ∈ data, 0 ≤ p.2.saldo_capital) :
    ∀ p ∈ retirar fecha data ced entrada, 0 ≤ p.2.saldo_capital := by
  cases hb : buscar data ced with
  | none => simp only [retirar, hb]; exact h
  | some u =>
    simp only [retirar, hb, registrar_operacion]
    by_cases h0 : u.deuda > 0
    · rw [if_pos h0]
      exact forall_mem_actualizar _ _ _ (fun v => 0 ≤ v.saldo_capital) h
        (fun v hv => by simpa using hv)
    · rw [if_neg h0]
      cases hsi : safe_int entrada with
      | none =>
          simp only [hsi]
          exact forall_mem_actualizar _ _ _ (fun v => 0 ≤ v.saldo_capital) h
            (fun v hv => by simpa using hv)
      | some monto =>
          simp only [hsi]
          by_cases h1 : monto ≤ 0 ∨ monto % MULTIPLO ≠ 0
          · rw [if_pos h1]
            exact forall_mem_actualizar _ _ _ (fun v => 0 ≤ v.saldo_capital) h
              (fun v hv => by simpa using hv)
          · rw [if_neg h1]
            by_cases h2 : monto > u.saldo_capital
            · rw [if_pos h2]
              exact forall_mem_actualizar _ _ _ (fun v => 0 ≤ v.saldo_capital) h
                (fun v hv => by simpa using hv)
            · rw [if_neg h2]
              by_cases h3 : u.saldo_capital - monto < SALDO_MINIMO
              · rw [if_pos h3]
                exact forall_mem_actualizar _ _ _ (fun v => 0 ≤ v.saldo_capital) h
                  (fun v hv => by simpa using hv)
              · rw [if_neg h3, actualizar_comp]
                refine forall_mem_actualizar_buscar data ced _ u
                  (fun v => 0 ≤ v.saldo_capital) hnd hb h ?_
                simp only [agregarOp_saldo_capital, SALDO_MINIMO] at h3 ⊢
                show (0:Int) ≤ u.saldo_capital - monto
                omega

theorem solicitar_prestamo_nonneg (fecha : String) (data : Store) (ced entrada : String)
    (h : ∀ p ∈ data, 0 ≤ p.2.saldo_capital) :
    ∀ p ∈ solicitar_prestamo fecha data ced entrada, 0 ≤ p.2.saldo_capital := by
  cases hb : buscar data ced with
  | none => simp only [solicitar_prestamo, hb]; exact h
  | some u =>
    simp only [solicitar_prestamo, hb, registrar_operacion]
    by_cases h0 : u.deuda > 0
    · rw [if_pos h0]
      exact forall_mem_actualizar _ _ _ (fun v => 0 ≤ v.saldo_capital) h
        (fun v hv => by simpa using hv)
    · rw [if_neg h0]
      cases hsi : safe_int entrada with
      | none =>
          simp only [hsi]
          exact forall_mem_actualizar _ _ _ (fun v => 0 ≤ v.saldo_capital) h
            (fun v hv => by simpa using hv)
      | some monto =>
          simp only [hsi]
          by_cases h1 : monto ≤ 0 ∨ monto % MULTIPLO ≠ 0
          · rw [if_pos h1]
            exact forall_mem_actualizar _ _ _ (fun v => 0 ≤ v.saldo_capital) h
              (fun v hv => by simpa using hv)
          · rw [if_neg h1]
            push_neg at h1
            by_cases h2 : monto > u.saldo_capital * 4
            · rw [if_pos h2]
              exact forall_mem_actualizar _ _ _ (fun v => 0 ≤ v.saldo_capital) h
                (fun v hv => by simpa using hv)
            · rw [if_neg h2, actualizar_comp]
              refine forall_mem_actualizar _ _ _ (fun v => 0 ≤ v.saldo_capital) h
                (fun v hv => ?_)
              simp only [agregarOp_saldo_capital]
              show (0:Int) ≤ v.saldo_capital + monto
              omega

theorem realizar_giro_nonneg (fecha : String) (data : Store) (ced destino entrada : String)
    (hnd : ClavesUnicas data) (h : ∀ p ∈ data, 0 ≤ p.2.saldo_capital) :
    ∀ p ∈ realizar_giro fecha data ced destino entrada, 0 ≤ p.2.saldo_capital := by
  cases hb : buscar data ced with
  | none => simp only [realizar_giro, hb]; exact h
  | some u =>
    simp only [realizar_giro, hb, registrar_operacion]
    by_cases h0 : u.deuda > 0
    · rw [if_pos h0]
      exact forall_mem_actualizar _ _ _ (fun v => 0 ≤ v.saldo_capital) h
        (fun v hv => by simpa using hv)
    · rw [if_neg h0]
      by_cases hdc : destino == ced
      · rw [if_pos hdc]
        exact forall_mem_actualizar _ _ _ (fun v => 0 ≤ v.saldo_capital) h
          (fun v hv => by simpa using hv)
      · rw [if_neg hdc]
        by_cases hdm : (buscar data destino).isNone
        · rw [if_pos hdm]
          exact forall_mem_actualizar _ _ _ (fun v => 0 ≤ v.saldo_capital) h
            (fun v hv => by simpa using hv)
        · rw [if_neg hdm]
          cases hsi : safe_int entrada with
          | none =>
              simp only [hsi]
              exact forall_mem_actualizar _ _ _ (fun v => 0 ≤ v.saldo_capital) h
                (fun v hv => by simpa using hv)
          | some monto =>
              simp only [hsi]
              by_cases h1 : monto ≤ 0 ∨ monto % MULTIPLO ≠ 0
              · rw [if_pos h1]
                exact forall_mem_actualizar _ _ _ (fun v => 0 ≤ v.saldo_capital) h
                  (fun v hv => by simpa using hv)
              · rw [if_neg h1]
                push_neg at h1
                by_cases h2 : monto > u.saldo_capital
                · rw [if_pos h2]
                  exact forall_mem_actualizar _ _ _ (fun v => 0 ≤ v.saldo_capital) h
                    (fun v hv => by simpa using hv)
                · rw [if_neg h2]
                  by_cases h3 : u.saldo_capital - monto < SALDO_MINIMO
                  · rw [if_pos h3]
                    exact forall_mem_actualizar _ _ _ (fun v => 0 ≤ v.saldo_capital) h
                      (fun v hv => by simpa using hv)
                  · rw [if_neg h3]
                    apply forall_mem_actualizar _ _ _ (fun v => 0 ≤ v.saldo_capital) ?_
                      (fun v hv => by simpa using hv)
                    apply forall_mem_actualizar _ _ _ (fun v => 0 ≤ v.saldo_capital) ?_
                      (fun v hv => by simpa using hv)
                    apply forall_mem_actualizar _ _ _ (fun v => 0 ≤ v.saldo_capital) ?_
                      (fun v hv => by
                        simp only [agregarOp_saldo_capital] at hv ⊢
                        show (0:Int) ≤ v.saldo_capital + monto
                        omega)
                    refine forall_mem_actualizar_buscar data ced _ u
                      (fun v => 0 ≤ v.saldo_capital) hnd hb h ?_
                    simp only [SALDO_MINIMO] at h3
                    show (0:Int) ≤ u.saldo_capital - monto
                    omega

theorem abonar_prestamo_nonneg (fecha : String) (data : Store) (ced entrada : String)
    (h : ∀ p ∈ data, 0 ≤ p.2.saldo_capital) :
    ∀ p ∈ abonar_prestamo fecha data ced entrada, 0 ≤ p.2.saldo_capital := by
  cases hb : buscar data ced with
  | none => simp only [abonar_prestamo, hb]; exact h
  | some u =>
    simp only [abonar_prestamo, hb, registrar_operacion]
    by_cases h0 : u.deuda ≤ 0
    · rw [if_pos h0]; exact h
    · rw [if_neg h0]
      cases hsi : safe_int entrada with
      | none =>
          simp only [hsi]
          exact forall_mem_actualizar _ _ _ (fun v => 0 ≤ v.saldo_capital) h
            (fun v hv => by simpa using hv)
      | some monto =>
          simp only [hsi]
          by_cases h1 : monto ≤ 0 ∨ monto % MULTIPLO ≠ 0
          · rw [if_pos h1]
            exact forall_mem_actualizar _ _ _ (fun v => 0 ≤ v.saldo_capital) h
              (fun v hv => by simpa using hv)
          · rw [if_neg h1]
            by_cases h3 : monto ≥ u.deuda
            · rw [if_pos h3, actualizar_comp]
              refine forall_mem_actualizar _ _ _ (fun v => 0 ≤ v.saldo_capital) h
                (fun v hv => ?_)
              simp only [agregarOp_saldo_capital]
              show (0:Int) ≤ if monto - u.deuda > 0 then v.saldo_capital + (monto - u.deuda)
                  else v.saldo_capital
              split_ifs with hx <;> omega
            · rw [if_neg h3, actualizar_comp]
              exact forall_mem_actualizar _ _ _ (fun v => 0 ≤ v.saldo_capital) h
                (fun v hv => by simpa using hv)

theorem retirar_rechazo_sin_cambio (fecha : String) (data : Store) (ced entrada : String)
    (u : Cuenta) (monto : Int) (hb : buscar data ced = some u)
    (hsi : safe_int entrada = some monto)
    (hrej : ¬(monto ≤ u.saldo_capital ∧ u.saldo_capital - monto ≥ SALDO_MINIMO)) :
    (buscar (retirar fecha data ced entrada) ced).map
        (fun w => (w.saldo_capital, w.saldo_prestamo, w.deuda))
      = some (u.saldo_capital, u.saldo_prestamo, u.deuda) := by
  simp only [retirar, hb, hsi]
  by_cases h0 : u.deuda > 0
  · rw [if_pos h0]
    exact buscar_registrar_monetario _ _ _ _ _ _ _ _ _ hb
  · rw [if_neg h0]
    by_cases h1 : monto ≤ 0 ∨ monto % MULTIPLO ≠ 0
    · rw [if_pos h1]
      exact buscar_registrar_monetario _ _ _ _ _ _ _ _ _ hb
    · rw [if_neg h1]
      by_cases h2 : monto > u.saldo_capital
      · rw [if_pos h2]
        exact buscar_registrar_monetario _ _ _ _ _ _ _ _ _ hb
      · rw [if_neg h2]
        by_cases h3 : u.saldo_capital - monto < SALDO_MINIMO
        · rw [if_pos h3]
          exact buscar_registrar_monetario _ _ _ _ _ _ _ _ _ hb
        · exact absurd ⟨by omega, by omega⟩ hrej

theorem realizar_giro_rechazo_sin_cambio (fecha : String) (data : Store)
    (ced destino entrada : String) (u : Cuenta) (monto : Int)
    (hb : buscar data ced = some u) (hsi : safe_int entrada = some monto)
    (hrej : ¬(monto ≤ u.saldo_capital ∧ u.saldo_capital - monto ≥ SALDO_MINIMO)) :
    (buscar (realizar_giro fecha data ced destino entrada) ced).map
        (fun w => (w.saldo_capital, w.saldo_prestamo, w.deuda))
      = some (u.saldo_capital, u.saldo_prestamo, u.deuda) := by
  simp only [realizar_giro, hb, hsi]
  by_cases h0 : u.deuda > 0
  · rw [if_pos h0]
    exact buscar_registrar_monetario _ _ _ _ _ _ _ _ _ hb
  · rw [if_neg h0]
    by_cases hdc : destino == ced
    · rw [if_pos hdc]
      exact buscar_registrar_monetario _ _ _ _ _ _ _ _ _ hb
    · rw [if_neg hdc]
      by_cases hdm : (buscar data destino).isNone
      · rw [if_pos hdm]
        exact buscar_registrar_monetario _ _ _ _ _ _ _ _ _ hb
      · rw [if_neg hdm]
        by_cases h1 : monto ≤ 0 ∨ monto % MULTIPLO ≠ 0
        · rw [if_pos h1]
          exact buscar_registrar_monetario _ _ _ _ _ _ _ _ _ hb
        · rw [if_neg h1]
          by_cases h2 : monto > u.saldo_capital
          · rw [if_pos h2]
            exact buscar_registrar_monetario _ _ _ _ _ _ _ _ _ hb
          · rw [if_neg h2]
            by_cases h3 : u.saldo_capital - monto < SALDO_MINIMO
            · rw [if_pos h3]
              exact buscar_registrar_monetario _ _ _ _ _ _ _ _ _ hb
            · exact absurd ⟨by omega, by omega⟩ hrej

/-- C6: no Ledger Engine operation ever leaves capital below zero (first
conjunct: non-negativity of every account's capital is preserved by every
operation), and a withdrawal or outgoing transfer whose parsed amount fails
`amount <= capital` or `capital - amount >= 50000` is rejected with the
acting account's balances unchanged (second and third conjuncts). -/
theorem claim_C6_capital_nunca_negativo :
    (∀ (fecha : String) (data : Store) (ced : String) (op : OpCajero),
        ClavesUnicas data → (∀ p ∈ data, 0 ≤ p.2.saldo_capital) →
        ∀ p ∈ aplicar_op fecha data ced op, 0 ≤ p.2.saldo_capital) ∧
    (∀ (fecha : String) (data : Store) (ced entrada : String) (u : Cuenta) (monto : Int),
        buscar data ced = some u → safe_int entrada = some monto →
        ¬(monto ≤ u.saldo_capital ∧ u.saldo_capital - monto ≥ SALDO_MINIMO) →
        (buscar (retirar fecha data ced entrada) ced).map
            (fun w => (w.saldo_capital, w.saldo_prestamo, w.deuda))
          = some (u.saldo_capital, u.saldo_prestamo, u.deuda)) ∧
    (∀ (fecha : String) (data : Store) (ced destino entrada : String)
        (u : Cuenta) (monto : Int),
        buscar data ced = some u → safe_int entrada = some monto →
        ¬(monto ≤ u.saldo_capital ∧ u.saldo_capital - monto ≥ SALDO_MINIMO) →
        (buscar (realizar_giro fecha data ced destino entrada) ced).map
            (fun w => (w.saldo_capital, w.saldo_prestamo, w.deuda))
          = some (u.saldo_capital, u.saldo_prestamo, u.deuda)) := by
  refine ⟨?_, ?_, ?_⟩
  · intro fecha data ced op hnd h
    cases op with
    | deposito entrada => exact depositar_nonneg fecha data ced entrada h
    | retiro entrada => exact retirar_nonneg fecha data ced entrada hnd h
    | prestamo entrada => exact solicitar_prestamo_nonneg fecha data ced entrada h
    | giro destino entrada => exact realizar_giro_nonneg fecha data ced destino entrada hnd h
    | abono entrada => exact abonar_prestamo_nonneg fecha data ced entrada h
  · intro fecha data ced entrada u monto hb hsi hrej
    exact retirar_rechazo_sin_cambio fecha data ced entrada u monto hb hsi hrej
  · intro fecha data ced destino entrada u monto hb hsi hrej
    exact realizar_giro_rechazo_sin_cambio fecha data ced destino entrada u monto hb hsi hrej

/-- C3: for every successful transfer of a valid amount from a clear sender
to an existing distinct destination, the sender's capital decreases by
exactly the amount, the destination's capital increases by exactly the
amount, and the total capital over the store is unchanged.  The hypotheses
are exactly the guards of realizar_giro's success path. -/
theorem claim_C3_conservacion_giro (fecha : String) (data : Store)
    (ced destino entrada : String) (u v : Cuenta) (monto : Int)
    (hnd : ClavesUnicas data)
    (hu : buscar data ced = some u) (hv : buscar data destino = some v)
    (hdc : destino ≠ ced) (hdeuda : u.deuda ≤ 0)
    (hsi : safe_int entrada = some monto)
    (hpos : 0 < monto) (hmult : monto % MULTIPLO = 0)
    (hcap : monto ≤ u.saldo_capital) (hmin : u.saldo_capital - monto ≥ SALDO_MINIMO) :
    (buscar (realizar_giro fecha data ced destino entrada) ced).map
        (fun w => w.saldo_capital) = some (u.saldo_capital - monto) ∧
    (buscar (realizar_giro fecha data ced destino entrada) destino).map
        (fun w => w.saldo_capital) = some (v.saldo_capital + monto) ∧
    sumCapital (realizar_giro fecha data ced destino entrada) = sumCapital data := by
  have hR : realizar_giro fecha data ced destino entrada =
      actualizar (actualizar (actualizar (actualizar data ced (fun w =>
            { w with saldo_capital := w.saldo_capital - monto })) destino (fun w =>
            { w with saldo_capital := w.saldo_capital + monto })) ced
          (agregarOp (mkOp fecha (Valor.int monto) (Valor.str ("OK"))
            ("Giro a " ++ destino) ("") (some destino)))) destino
        (agregarOp (mkOp fecha (Valor.int monto) (Valor.str ("OK"))
          ("Recepcion giro desde " ++ ced) ("") (some ced))) := by
    simp only [realizar_giro, hu, hsi, registrar_operacion]
    rw [if_neg (by omega), if_neg (by simpa using hdc),
      if_neg (by rw [hv]; simp), if_neg (by push_neg; exact ⟨hpos, hmult⟩),
      if_neg (by omega), if_neg (by omega)]
  have hcd : ced ≠ destino := Ne.symm hdc
  refine ⟨?_, ?_, ?_⟩
  · rw [hR, buscar_actualizar_ne _ destino ced _ hcd, buscar_actualizar_self,
      buscar_actualizar_ne _ destino ced _ hcd, buscar_actualizar_self, hu]
    simp
  · rw [hR, buscar_actualizar_self, buscar_actualizar_ne _ ced destino _ hdc,
      buscar_actualizar_self, buscar_actualizar_ne _ ced destino _ hdc, hv]
    simp
  · have hnd1 : ClavesUnicas (actualizar data ced (fun w =>
        { w with saldo_capital := w.saldo_capital - monto })) :=
      clavesUnicas_actualizar _ _ _ hnd
    have hv1 : buscar (actualizar data ced (fun w =>
        { w with saldo_capital := w.saldo_capital - monto })) destino = some v := by
      rw [buscar_actualizar_ne _ ced destino _ hdc]
      exact hv
    rw [hR,
      sumCapital_actualizar_congr _ destino
        (agregarOp (mkOp fecha (Valor.int monto) (Valor.str ("OK"))
          ("Recepcion giro desde " ++ ced) ("") (some ced))) (fun w => rfl),
      sumCapital_actualizar_congr _ ced
        (agregarOp (mkOp fecha (Valor.int monto) (Valor.str ("OK"))
          ("Giro a " ++ destino) ("") (some destino))) (fun w => rfl),
      sumCapital_actualizar_of_buscar _ destino _ v hnd1 hv1,
      sumCapital_actualizar_of_buscar _ ced _ u hnd hu]
    simp only
    ring

/-- C4: depositing into an indebted account settles the debt with priority:
an amount equal to the debt zeroes debt and loan balance with capital
unchanged; an amount at least the debt zeroes both and credits the
remainder to capital; a smaller amount reduces the debt by the amount and
the loan balance to max(0, loan_balance - amount), leaving capital
unchanged. -/
theorem claim_C4_deposito_liquida_deuda (fecha : String) (data : Store)
    (ced entrada : String) (u : Cuenta) (monto : Int)
    (hb : buscar data ced = some u) (hsi : safe_int entrada = some monto)
    (hpos : 0 < monto) (hmult : monto % MULTIPLO = 0) (hdeuda : 0 < u.deuda) :
    (monto = u.deuda →
      (buscar (depositar fecha data ced entrada) ced).map
          (fun w => (w.saldo_capital, w.saldo_prestamo, w.deuda))
        = some (u.saldo_capital, 0, 0)) ∧
    (monto ≥ u.deuda →
      (buscar (depositar fecha data ced entrada) ced).map
          (fun w => (w.saldo_capital, w.saldo_prestamo, w.deuda))
        = some (u.saldo_capital + (monto - u.deuda), 0, 0)) ∧
    (monto < u.deuda →
      (buscar (depositar fecha data ced entrada) ced).map
          (fun w => (w.saldo_capital, w.saldo_prestamo, w.deuda))
        = some (u.saldo_capital, max 0 (u.saldo_prestamo - monto), u.deuda - monto)) := by
  refine ⟨?_, ?_, ?_⟩
  · intro heq
    simp only [depositar, hb, hsi, registrar_operacion]
    rw [if_neg (by push_neg; exact ⟨hpos, hmult⟩), if_pos hdeuda,
      if_pos (by omega), actualizar_comp, buscar_actualizar_self, hb]
    have hx : ¬(monto - u.deuda > 0) := by omega
    simp [agregarOp, hx]
  · intro hge
    simp only [depositar, hb, hsi, registrar_operacion]
    rw [if_neg (by push_neg; exact ⟨hpos, hmult⟩), if_pos hdeuda,
      if_pos hge, actualizar_comp, buscar_actualizar_self, hb]
    by_cases hx : monto - u.deuda > 0
    · simp [agregarOp, hx]
    · have hz : monto - u.deuda = 0 := by omega
      simp [agregarOp, hx, hz]
  · intro hlt
    simp only [depositar, hb, hsi, registrar_operacion]
    rw [if_neg (by push_neg; exact ⟨hpos, hmult⟩), if_pos hdeuda,
      if_neg (by omega), actualizar_comp, buscar_actualizar_self, hb]
    simp [agregarOp]

/-- C10: loan repayment never reads or debits capital: with outstanding debt
and a positive multiple-of-10000 amount it always goes through (no
hypothesis mentions the account's capital), the only change to capital is
an increase by max(0, amount - debt), the debt becomes max(0, debt -
amount), every identity field is untouched, and exactly one record is
appended to the log. -/
theorem claim_C10_abono_no_usa_capital (fecha : String) (data : Store)
    (ced entrada : String) (u : Cuenta) (monto : Int)
    (hb : buscar data ced = some u) (hsi : safe_int entrada = some monto)
    (hpos : 0 < monto) (hmult : monto % MULTIPLO = 0) (hdeuda : 0 < u.deuda) :
    (buscar (abonar_prestamo fecha data ced entrada) ced).map
        (fun w => (w.saldo_capital, w.deuda, w.cedula, w.nombre, w.apellidos,
          w.fecha_nacimiento, w.edad, w.genero, w.estado_civil, w.email,
          w.fecha_apertura, w.usuario, w.clave, w.operaciones.length))
      = some (u.saldo_capital + max 0 (monto - u.deuda), max 0 (u.deuda - monto),
          u.cedula, u.nombre, u.apellidos, u.fecha_nacimiento, u.edad, u.genero,
          u.estado_civil, u.email, u.fecha_apertura, u.usuario, u.clave,
          u.operaciones.length + 1) := by
  simp only [abonar_prestamo, hb, hsi, registrar_operacion]
  rw [if_neg (by omega), if_neg (by push_neg; exact ⟨hpos, hmult⟩)]
  by_cases h3 : monto ≥ u.deuda
  · rw [if_pos h3, actualizar_comp, buscar_actualizar_self, hb]
    have hmax1 : max 0 (monto - u.deuda) = monto - u.deuda := max_eq_right (by omega)
    have hmax2 : max 0 (u.deuda - monto) = 0 := max_eq_left (by omega)
    by_cases hx : monto - u.deuda > 0
    · simp [agregarOp, hx, hmax1, hmax2]
    · have hz : monto - u.deuda = 0 := by omega
      simp [agregarOp, hx, hmax1, hmax2, hz]
  · rw [if_neg h3, actualizar_comp, buscar_actualizar_self, hb]
    have hmax1 : max 0 (monto - u.deuda) = 0 := max_eq_left (by omega)
    have hmax2 : max 0 (u.deuda - monto) = u.deuda - monto := max_eq_right (by omega)
    simp [agregarOp, hmax1, hmax2]

/-- C9: an account created by the registration flow starts clear: debt and
loan balance are zero and the initial capital is the validated amount,
which the registration loop only accepts when it is a multiple of 10000 at
least SALDO_MINIMO. -/
theorem claim_C9_cuenta_nueva_limpia (data : Store) (ced nombre apellidos fn : String)
    (edad : Int) (genero estadoCivil email usuario clave : String) (monto : Int)
    (fechaAp : String)
    (hfresh : buscar data ced = none)
    (hmin : SALDO_MINIMO ≤ monto) (hmult : monto % MULTIPLO = 0) :
    ∃ w, buscar (registrar_usuario data ced nombre apellidos fn edad genero
        estadoCivil email usuario clave monto fechaAp) ced = some w ∧
      w.deuda = 0 ∧ w.saldo_prestamo = 0 ∧ w.saldo_capital = monto ∧
      w.saldo_capital % MULTIPLO = 0 ∧ SALDO_MINIMO ≤ w.saldo_capital := by
  unfold registrar_usuario registrar_operacion
  rw [buscar_actualizar_self, buscar_append_self data ced _ hfresh]
  exact ⟨_, rfl, rfl, rfl, rfl, hmult, hmin⟩

/-- Cuenta concreta (para testigos y contraejemplos). -/
def cuentaEjemplo (ced : String) (cap pres deu : Int) (ops : List Operacion) : Cuenta :=
  { cedula := ced, nombre := "Ana", apellidos := "Diaz",
    fecha_nacimiento := "2000-01-01", edad := 25, genero := "F",
    estado_civil := "S", email := "ana@mail.com",
    fecha_apertura := "2024-01-01 10:00:00", usuario := "ana", clave := "1234",
    saldo_capital := cap, saldo_prestamo := pres, deuda := deu,
    operaciones := ops }

/-- C2 (code bug): the registrar_operacion call sites inside the ledger
operations omit the `tipo` positional argument, so every record they append
is shifted one slot: evaluating depositar on the unparsable raw input "abc"
appends a record whose tipo field holds the raw input, whose monto field
holds the string "ERROR", and whose estado field holds the description; and
even a successful deposit of 20000 appends a record with tipo = 20000,
monto = "OK" and estado = "Deposito a capital".  This contradicts
registrar_operacion's own docstring (campos uniformes fecha/tipo/monto/
estado OK-ERROR) and leaves filtrar_por_tipo's DEPÓSITO/RETIRO/... tags
permanently unmatchable, so the claim describes the intent and the code has
the slip. -/
theorem claim_C2_campos_desplazados :
    (buscar (depositar ("2024-01-02 09:00:00")
        [(("111" : String), cuentaEjemplo ("111") 100000 0 0 [])] ("111") ("abc"))
        ("111")).map (fun w => w.operaciones)
      = some [{ fecha := "2024-01-02 09:00:00", tipo := Valor.str ("abc"),
                monto := Valor.str ("ERROR"), estado := "Monto no numerico",
                descripcion := "", destinatario := none }] ∧
    (buscar (depositar ("2024-01-02 09:00:00")
        [(("111" : String), cuentaEjemplo ("111") 100000 0 0 [])] ("111") ("20000"))
        ("111")).map (fun w => w.operaciones)
      = some [{ fecha := "2024-01-02 09:00:00", tipo := Valor.int 20000,
                monto := Valor.str ("OK"), estado := "Deposito a capital",
                descripcion := "", destinatario := none }] := by
  decide

/-- C5 counterexample: a loan repayment attempted with no outstanding debt
only prints a message — the store comes back unchanged, so no Operation
record (ERROR or otherwise) is appended for this business-rule violation. -/
theorem claim_C5_contraejemplo :
    abonar_prestamo ("2024-01-02 09:00:00")
        [(("111" : String), cuentaEjemplo ("111") 100000 0 0 [])] ("111") ("10000")
      = [(("111" : String), cuentaEjemplo ("111") 100000 0 0 [])] ∧
    (cuentaEjemplo ("111") 100000 0 0 []).operaciones.length = 0 := by
  decide

/-! Persistence layer: filesystem model, backup_si_existe and cargar_datos. -/

/-- Cuenta tal como aparece en el JSON del disco: the three monetary fields
can hold any scalar the file contains (modelled as Valor); the other fields
as in Cuenta. -/
structure CuentaRaw where
  cedula : String
  nombre : String
  apellidos : String
  fecha_nacimiento : String
  edad : Int
  genero : String
  estado_civil : String
  email : String
  fecha_apertura : String
  usuario : String
  clave : String
  saldo_capital : Valor
  saldo_prestamo : Valor
  deuda : Valor
  operaciones : List Operacion
  deriving DecidableEq, Repr

/-- int(x) as applied at load time to a JSON scalar: integers pass through,
numeric strings parse (int strips surrounding whitespace), anything else
raises — returned here as none so the caller can apply its fallback. -/
def coerceInt (v : Valor) : Option Int :=
  match v with
  | Valor.int n => some n
  | Valor.str s => safe_int s

/-- Normalisation of one loaded account (src/cajero.py lines 83-98):
account-level monetary fields are coerced to int and zeroed when the
coercion fails; each operation's monto is coerced to int when possible and
otherwise kept exactly as it came, preserving the trace. -/
def normalizar_cuenta (u : CuentaRaw) : Cuenta :=
  { cedula := u.cedula, nombre := u.nombre, apellidos := u.apellidos,
    fecha_nacimiento := u.fecha_nacimiento, edad := u.edad, genero := u.genero,
    estado_civil := u.estado_civil, email := u.email,
    fecha_apertura := u.fecha_apertura, usuario := u.usuario, clave := u.clave,
    saldo_capital := (coerceInt u.saldo_capital).getD 0,
    saldo_prestamo := (coerceInt u.saldo_prestamo).getD 0,
    deuda := (coerceInt u.deuda).getD 0,
    operaciones := u.operaciones.map (fun op =>
      { op with monto := match op.monto with
          | Valor.int n => Valor.int n
          | Valor.str s => match safe_int s with
              | some n => Valor.int n
              | none => Valor.str s }) }

/-- Contenido de un archivo tal como lo ve json.load: bytes that are not
valid JSON, a JSON value that is not an object, or a JSON object carrying a
raw store. -/
inductive Contenido where
  | invalido (raw : String)
  | jsonNoDict (raw : String)
  | jsonDict (d : List (String × CuentaRaw))
  deriving DecidableEq, Repr

/-- esCorrupto: content on which cargar_datos' json.load-and-check step
raises (invalid JSON, or valid JSON that is not a dict). -/
def Contenido.esCorrupto : Contenido → Bool
  | Contenido.invalido _ => true
  | Contenido.jsonNoDict _ => true
  | Contenido.jsonDict _ => false

/-- Modelo del sistema de archivos de la capa de persistencia: the content
at each path, plus success oracles for the two fallible backup steps
(os.replace, and the open/read/write copy fallback), whose failures the
source swallows. -/
structure FS where
  archivos : String → Option Contenido
  replaceOk : Bool
  copyOk : Bool

/-- Write (or with none, remove) the content at a path. -/
def escribirFS (fs : FS) (path : String) (c : Option Contenido) : FS :=
  { fs with archivos := fun q => if q = path then c else fs.archivos q }

/-- backup_si_existe (src/cajero.py lines 41-55): when the path exists, try
os.replace(path, path + BACKUP_SUFFIX), which renames over and thereby
overwrites any prior backup; if the replace fails, fall back to copying the
bytes (leaving the original in place); swallow every failure. -/
def backup_si_existe (fs : FS) (path : String) : FS :=
  match fs.archivos path with
  | none => fs
  | some c =>
    let bak := path ++ BACKUP_SUFFIX
    if fs.replaceOk then
      escribirFS (escribirFS fs bak (some c)) path none
    else if fs.copyOk then
      escribirFS fs bak (some c)
    else
      fs

/-- cargar_datos (src/cajero.py lines 73-105): a missing DATA_FILE yields an
empty store; a file that exists but does not parse as a JSON object triggers
backup_si_existe and yields an empty store, never an exception; a JSON
object is normalised entry by entry.  Returns the loaded store together
with the filesystem after any backup attempt. -/
def cargar_datos (fs : FS) : Store × FS :=
  match fs.archivos DATA_FILE with
  | none => ([], fs)
  | some (Contenido.invalido _) => ([], backup_si_existe fs DATA_FILE)
  | some (Contenido.jsonNoDict _) => ([], backup_si_existe fs DATA_FILE)
  | some (Contenido.jsonDict d) => (d.map (fun p => (p.1, normalizar_cuenta p.2)), fs)

/-- C7: when the backing file exists but does not parse as a JSON object,
cargar_datos returns an empty store whatever the outcome of the backup
steps (every backup error is swallowed; nothing reaches the caller), and
whenever the os.replace step succeeds the corrupt content ends up at the
fixed `.bak` sibling — overwriting whatever backup was there, since the
hypothesis places no condition on the prior content of that path — and is
gone from the original path. -/
theorem claim_C7_carga_corrupta (fs : FS) (c : Contenido)
    (hc : fs.archivos DATA_FILE = some c) (hcor : c.esCorrupto = true) :
    (cargar_datos fs).1 = [] ∧
    (fs.replaceOk = true →
      (cargar_datos fs).2.archivos (DATA_FILE ++ BACKUP_SUFFIX) = some c ∧
      (cargar_datos fs).2.archivos DATA_FILE = none) := by
  have hne : DATA_FILE ++ BACKUP_SUFFIX ≠ DATA_FILE := by decide
  cases c with
  | invalido raw =>
      constructor
      · simp [cargar_datos, hc]
      · intro hrep
        simp only [cargar_datos, hc, backup_si_existe, escribirFS, hrep, if_pos]
        constructor
        · simp [hne]
        · simp [hne]
  | jsonNoDict raw =>
      constructor
      · simp [cargar_datos, hc]
      · intro hrep
        simp only [cargar_datos, hc, backup_si_existe, escribirFS, hrep, if_pos]
        constructor
        · simp [hne]
        · simp [hne]
  | jsonDict d => simp [Contenido.esCorrupto] at hcor

/-! Historial: timestamp parsing and the two ordering views. -/

/-- Regla de anno bisiesto (Gregorian). -/
def bisiesto (y : Nat) : Bool :=
  (y % 4 == 0 && y % 100 != 0) || y % 400 == 0

/-- Dias que tiene un mes. -/
def diasEnMes (y m : Nat) : Nat :=
  if m = 2 then (if bisiesto y then 29 else 28)
  else if m = 4 ∨ m = 6 ∨ m = 9 ∨ m = 11 then 30
  else 31

/-- parseFecha: datetime.strptime(s, FECHA_FMT) with FECHA_FMT =
"%Y-%m-%d %H:%M:%S" (src/cajero.py line 13), modelled on the zero-padded
canonical shape that ahora() emits ("YYYY-MM-DD HH:MM:SS"); it returns the
(year, month, day, hour, minute, second) tuple, or none where strptime
raises ValueError (wrong shape or an out-of-range component). -/
def parseFecha (s : String) : Option (Nat × Nat × Nat × Nat × Nat × Nat) :=
  match s.toList with
  | [y1, y2, y3, y4, g1, m1, m2, g2, d1, d2, sp, h1, h2, p1, n1, n2, p2, s1, s2] =>
    if [y1, y2, y3, y4, m1, m2, d1, d2, h1, h2, n1, n2, s1, s2].all Char.isDigit
        && g1 == '-' && g2 == '-' && sp == ' ' && p1 == ':' && p2 == ':' then
      let y := digitsToNat [y1, y2, y3, y4]
      let mes := digitsToNat [m1, m2]
      let dia := digitsToNat [d1, d2]
      let hora := digitsToNat [h1, h2]
      let minuto := digitsToNat [n1, n2]
      let seg := digitsToNat [s1, s2]
      if 1 ≤ y ∧ 1 ≤ mes ∧ mes ≤ 12 ∧ 1 ≤ dia ∧ dia ≤ diasEnMes y mes ∧
          hora ≤ 23 ∧ minuto ≤ 59 ∧ seg ≤ 59 then
        some (y, mes, dia, hora, minuto, seg)
      else none
    else none
  | _ => none

/-- Monotone encoding of a parsed timestamp: with the parsed fields inside
their ranges, lexicographic order of the tuple coincides with numeric order
of the encoding. -/
def claveFecha (t : Nat × Nat × Nat × Nat × Nat × Nat) : Nat :=
  ((((t.1 * 13 + t.2.1) * 32 + t.2.2.1) * 24 + t.2.2.2.1) * 60 + t.2.2.2.2.1) * 60
    + t.2.2.2.2.2

/-- Sort key of one operation record (meaningful when its fecha parses). -/
def claveOp (op : Operacion) : Nat :=
  match parseFecha op.fecha with
  | some t => claveFecha t
  | none => 0

/-- sorted(ops, key=strptime(fecha), reverse=True): a stable descending
sort by parsed fecha (Python's sort is stable and reverse=True compares
keys in descending order without disturbing ties). -/
def ordenarFechaDesc (ops : List Operacion) : List Operacion :=
  ops.mergeSort (fun a b => decide (claveOp b ≤ claveOp a))

/-- todasFechasParsean: sorted()/list.sort() compute the key of every
element, so the sort succeeds exactly when every stored fecha parses. -/
def todasFechasParsean (ops : List Operacion) : Bool :=
  ops.all (fun op => (parseFecha op.fecha).isSome)

/-- mostrar_historial's ordering of the log (src/cajero.py lines 499-503):
by fecha descending; if strptime raises on any entry the whole sorted()
result is abandoned and reverse-insertion order is used instead. -/
def historial_ordenado (ops : List Operacion) : List Operacion :=
  if todasFechasParsean ops then ordenarFechaDesc ops else ops.reverse

/-- filtrar_por_tipo's view, before pagination (src/cajero.py lines
527-531): filter the log by the type tag, then ops.sort(key=strptime,
reverse=True) in place with the exception swallowed by `except: pass`.
CPython's list.sort computes every key before it reorders anything and
restores the original order when a key raises, so on a parse failure the
filtered list keeps its insertion order. -/
def filtrar_por_tipo_ops (tipo : String) (ops : List Operacion) : List Operacion :=
  let l := ops.filter (fun op => op.tipo == Valor.str tipo)
  if todasFechasParsean l then ordenarFechaDesc l else l

/-- C8 (amended): on logs whose filtered timestamps all parse,
filter_by_type indeed applies the history view's policy — the filtered
list comes back exactly as historial_ordenado would order it, a stable
descending-by-fecha permutation of the filtered entries — but when any
filtered timestamp fails to parse the two policies differ: the filtered
list is returned in pure insertion order (the in-place sort aborts before
reordering), not in the reverse-insertion order the claim states. -/
theorem claim_C8_filtro_misma_politica (tipo : String) (ops : List Operacion) :
    (todasFechasParsean (ops.filter (fun op => op.tipo == Valor.str tipo)) = true →
      filtrar_por_tipo_ops tipo ops
          = historial_ordenado (ops.filter (fun op => op.tipo == Valor.str tipo)) ∧
      (filtrar_por_tipo_ops tipo ops).Perm
          (ops.filter (fun op => op.tipo == Valor.str tipo)) ∧
      (filtrar_por_tipo_ops tipo ops).Pairwise
          (fun a b => claveOp b ≤ claveOp a)) ∧
    (todasFechasParsean (ops.filter (fun op => op.tipo == Valor.str tipo)) = false →
      filtrar_por_tipo_ops tipo ops = ops.filter (fun op => op.tipo == Valor.str tipo)) := by
  constructor
  · intro hall
    refine ⟨?_, ?_, ?_⟩
    · unfold filtrar_por_tipo_ops historial_ordenado
      rw [if_pos hall, if_pos hall]
    · unfold filtrar_por_tipo_ops
      rw [if_pos hall]
      exact List.mergeSort_perm _ _
    · unfold filtrar_por_tipo_ops
      rw [if_pos hall]
      have hs := @List.sorted_mergeSort Operacion
        (fun a b => decide (claveOp b ≤ claveOp a))
        (fun a b c hab hbc => by
          simp only [decide_eq_true_eq] at hab hbc ⊢
          omega)
        (fun a b => by
          simp only [Bool.or_eq_true, decide_eq_true_eq]
          omega)
        (ops.filter (fun op => op.tipo == Valor.str tipo))
      exact hs.imp (by simp only [decide_eq_true_eq]; exact fun h => h)
  · intro hnone
    unfold filtrar_por_tipo_ops
    rw [if_neg (by rw [hnone]; exact Bool.false_ne_true)]

/-- Operacion concreta del tipo DEPÓSITO (para el contraejemplo de C8). -/
def opEjemplo (fecha : String) : Operacion :=
  { fecha := fecha, tipo := Valor.str ("DEPÓSITO"), monto := Valor.int 20000,
    estado := "OK", descripcion := "", destinatario := none }

/-- C8 counterexample: with one well-formed and one malformed fecha among
the filtered entries, filtrar_por_tipo returns the filtered list in pure
insertion order, which is not the reverse-insertion order the claim
prescribes for the parse-failure fallback. -/
theorem claim_C8_contraejemplo :
    filtrar_por_tipo_ops ("DEPÓSITO")
        [opEjemplo ("2024-01-01 10:00:00"), opEjemplo ("fecha rota")]
      = [opEjemplo ("2024-01-01 10:00:00"), opEjemplo ("fecha rota")] ∧
    [opEjemplo ("2024-01-01 10:00:00"), opEjemplo ("fecha rota")]
      ≠ ([opEjemplo ("2024-01-01 10:00:00"), opEjemplo ("fecha rota")] :
          List Operacion).reverse := by
  decide

/-! Testigos: each claim theorem evaluated at a concrete input. -/

/-- Almacen de dos cuentas para los testigos de giro. -/
def almacenDos : Store :=
  [(("111" : String), cuentaEjemplo ("111") 100000 0 0 []),
   (("222" : String), cuentaEjemplo ("222") 60000 0 0 [])]

/-- Cuenta "111" tras depositar 450000 sobre deuda 400000. -/
def cuentaC1res : Cuenta :=
  cuentaEjemplo ("111") 150000 0 0
    [{ fecha := "2024-01-02 09:00:00", tipo := Valor.int 450000,
       monto := Valor.str ("OK"), estado := "Pago deuda 400000; excedente 50000",
       descripcion := "", destinatario := none }]

/-- Witness for C1: depositing 450000 on an account with debt 400000 clears
both debt and loan balance. -/
theorem claim_C1_testigo :
    cuentaC1res.deuda = cuentaC1res.saldo_prestamo ∧
      (cuentaC1res.deuda = 0 ↔ cuentaC1res.saldo_prestamo = 0) :=
  claim_C1_deuda_cero_sii_prestamo_cero ("2024-01-02 09:00:00")
    [(("111" : String), cuentaEjemplo ("111") 100000 400000 400000 [])] ("111")
    (OpCajero.deposito ("450000")) (by decide) (by decide)
    (("111" : String), cuentaC1res) (by decide)

/-- Witness for C3: transferring 30000 from "111" (capital 100000) to "222"
(capital 60000). -/
theorem claim_C3_testigo :
    (buscar (realizar_giro ("2024-01-02 09:00:00") almacenDos ("111") ("222")
        ("30000")) ("111")).map (fun w => w.saldo_capital)
      = some ((cuentaEjemplo ("111") 100000 0 0 []).saldo_capital - 30000) ∧
    (buscar (realizar_giro ("2024-01-02 09:00:00") almacenDos ("111") ("222")
        ("30000")) ("222")).map (fun w => w.saldo_capital)
      = some ((cuentaEjemplo ("222") 60000 0 0 []).saldo_capital + 30000) ∧
    sumCapital (realizar_giro ("2024-01-02 09:00:00") almacenDos ("111") ("222")
        ("30000")) = sumCapital almacenDos :=
  claim_C3_conservacion_giro ("2024-01-02 09:00:00") almacenDos ("111") ("222")
    ("30000") (cuentaEjemplo ("111") 100000 0 0 []) (cuentaEjemplo ("222") 60000 0 0 [])
    30000 (by decide) (by decide) (by decide) (by decide) (by decide) (by decide)
    (by decide) (by decide) (by decide) (by decide)

/-- Witness for C4: with debt 400000, depositing exactly 400000 settles
everything with capital unchanged, and depositing 50000 pays the debt down
partially. -/
theorem claim_C4_testigo :
    ((buscar (depositar ("2024-01-02 09:00:00")
        [(("111" : String), cuentaEjemplo ("111") 100000 400000 400000 [])] ("111")
        ("400000")) ("111")).map
        (fun w => (w.saldo_capital, w.saldo_prestamo, w.deuda))
      = some ((cuentaEjemplo ("111") 100000 400000 400000 []).saldo_capital, 0, 0)) ∧
    ((buscar (depositar ("2024-01-02 09:00:00")
        [(("111" : String), cuentaEjemplo ("111") 100000 400000 400000 [])] ("111")
        ("50000")) ("111")).map
        (fun w => (w.saldo_capital, w.saldo_prestamo, w.deuda))
      = some ((cuentaEjemplo ("111") 100000 400000 400000 []).saldo_capital,
          max 0 ((cuentaEjemplo ("111") 100000 400000 400000 []).saldo_prestamo - 50000),
          (cuentaEjemplo ("111") 100000 400000 400000 []).deuda - 50000)) :=
  ⟨(claim_C4_deposito_liquida_deuda ("2024-01-02 09:00:00")
      [(("111" : String), cuentaEjemplo ("111") 100000 400000 400000 [])] ("111")
      ("400000") (cuentaEjemplo ("111") 100000 400000 400000 []) 400000
      (by decide) (by decide) (by decide) (by decide) (by decide)).1 (by decide),
   (claim_C4_deposito_liquida_deuda ("2024-01-02 09:00:00")
      [(("111" : String), cuentaEjemplo ("111") 100000 400000 400000 [])] ("111")
      ("50000") (cuentaEjemplo ("111") 100000 400000 400000 []) 50000
      (by decide) (by decide) (by decide) (by decide) (by decide)).2.2 (by decide)⟩

/-- Witness for C5: a withdrawal appends exactly one record to the log. -/
theorem claim_C5_testigo :
    (buscar (aplicar_op ("2024-01-02 09:00:00")
        [(("111" : String), cuentaEjemplo ("111") 100000 0 0 [])] ("111")
        (OpCajero.retiro ("30000"))) ("111")).map (fun w => w.operaciones.length)
      = some ((cuentaEjemplo ("111") 100000 0 0 []).operaciones.length + 1) :=
  claim_C5_toda_rama_registra ("2024-01-02 09:00:00")
    [(("111" : String), cuentaEjemplo ("111") 100000 0 0 [])] ("111")
    (OpCajero.retiro ("30000")) (cuentaEjemplo ("111") 100000 0 0 [])
    (by decide) (fun e he => OpCajero.noConfusion he)

/-- Cuenta "111" tras retirar 30000 de capital 100000. -/
def cuentaC6res : Cuenta :=
  cuentaEjemplo ("111") 70000 0 0
    [{ fecha := "2024-01-02 09:00:00", tipo := Valor.int 30000,
       monto := Valor.str ("OK"), estado := "Retiro exitoso",
       descripcion := "", destinatario := none }]

/-- Witness for C6: a successful withdrawal keeps capital non-negative, and
a withdrawal (or transfer) of 80000 from capital 100000 — which would
breach the 50000 minimum — leaves the balances untouched. -/
theorem claim_C6_testigo :
    (0 ≤ cuentaC6res.saldo_capital) ∧
    ((buscar (retirar ("2024-01-02 09:00:00")
        [(("111" : String), cuentaEjemplo ("111") 100000 0 0 [])] ("111") ("80000"))
        ("111")).map (fun w => (w.saldo_capital, w.saldo_prestamo, w.deuda))
      = some ((cuentaEjemplo ("111") 100000 0 0 []).saldo_capital,
          (cuentaEjemplo ("111") 100000 0 0 []).saldo_prestamo,
          (cuentaEjemplo ("111") 100000 0 0 []).deuda)) ∧
    ((buscar (realizar_giro ("2024-01-02 09:00:00") almacenDos ("111") ("222")
        ("80000")) ("111")).map (fun w => (w.saldo_capital, w.saldo_prestamo, w.deuda))
      = some ((cuentaEjemplo ("111") 100000 0 0 []).saldo_capital,
          (cuentaEjemplo ("111") 100000 0 0 []).saldo_prestamo,
          (cuentaEjemplo ("111") 100000 0 0 []).deuda)) :=
  ⟨claim_C6_capital_nunca_negativo.1 ("2024-01-02 09:00:00")
      [(("111" : String), cuentaEjemplo ("111") 100000 0 0 [])] ("111")
      (OpCajero.retiro ("30000")) (by decide) (by decide)
      (("111" : String), cuentaC6res) (by decide),
   claim_C6_capital_nunca_negativo.2.1 ("2024-01-02 09:00:00")
      [(("111" : String), cuentaEjemplo ("111") 100000 0 0 [])] ("111") ("80000")
      (cuentaEjemplo ("111") 100000 0 0 []) 80000 (by decide) (by decide) (by decide),
   claim_C6_capital_nunca_negativo.2.2 ("2024-01-02 09:00:00") almacenDos ("111")
      ("222") ("80000") (cuentaEjemplo ("111") 100000 0 0 []) 80000
      (by decide) (by decide) (by decide)⟩

/-- Sistema de archivos con un DATA_FILE corrupto y un backup previo. -/
def fsEjemplo : FS :=
  { archivos := fun p =>
      if p = DATA_FILE then some (Contenido.invalido ("garbage"))
      else if p = DATA_FILE ++ BACKUP_SUFFIX then some (Contenido.invalido ("viejo"))
      else none,
    replaceOk := true, copyOk := true }

/-- Witness for C7: loading the corrupt fsEjemplo yields an empty store and
renames the corrupt content over the stale backup. -/
theorem claim_C7_testigo :
    (cargar_datos fsEjemplo).1 = [] ∧
    (fsEjemplo.replaceOk = true →
      (cargar_datos fsEjemplo).2.archivos (DATA_FILE ++ BACKUP_SUFFIX)
          = some (Contenido.invalido ("garbage")) ∧
      (cargar_datos fsEjemplo).2.archivos DATA_FILE = none) :=
  claim_C7_carga_corrupta fsEjemplo (Contenido.invalido ("garbage"))
    (by decide) (by decide)

/-- Witness for C8 (amended): on a one-entry filtered log with a parseable
fecha the filter view equals the history view's ordering of it, and on the
counterexample log with a broken fecha the filter view keeps insertion
order. -/
theorem claim_C8_testigo :
    (filtrar_por_tipo_ops ("DEPÓSITO") [opEjemplo ("2024-01-01 10:00:00")]
        = historial_ordenado (([opEjemplo ("2024-01-01 10:00:00")] :
            List Operacion).filter (fun op => op.tipo == Valor.str ("DEPÓSITO"))) ∧
      (filtrar_por_tipo_ops ("DEPÓSITO") [opEjemplo ("2024-01-01 10:00:00")]).Perm
        (([opEjemplo ("2024-01-01 10:00:00")] : List Operacion).filter
          (fun op => op.tipo == Valor.str ("DEPÓSITO"))) ∧
      (filtrar_por_tipo_ops ("DEPÓSITO") [opEjemplo ("2024-01-01 10:00:00")]).Pairwise
        (fun a b => claveOp b ≤ claveOp a)) ∧
    (filtrar_por_tipo_ops ("DEPÓSITO")
        [opEjemplo ("2024-01-01 10:00:00"), opEjemplo ("fecha rota")]
      = ([opEjemplo ("2024-01-01 10:00:00"), opEjemplo ("fecha rota")] :
          List Operacion).filter (fun op => op.tipo == Valor.str ("DEPÓSITO"))) :=
  ⟨(claim_C8_filtro_misma_politica ("DEPÓSITO")
      [opEjemplo ("2024-01-01 10:00:00")]).1 (by decide),
   (claim_C8_filtro_misma_politica ("DEPÓSITO")
      [opEjemplo ("2024-01-01 10:00:00"), opEjemplo ("fecha rota")]).2 (by decide)⟩

/-- Witness for C9: registering "111" with initial saldo 100000 creates a
clear account with that capital. -/
theorem claim_C9_testigo :
    (buscar (registrar_usuario [] ("111") ("Ana") ("Diaz") ("2000-01-01") 25 ("F")
        ("S") ("ana@mail.com") ("ana") ("1234") 100000 ("2024-01-01 10:00:00"))
        ("111")).map (fun w => (w.deuda, w.saldo_prestamo, w.saldo_capital))
      = some (0, 0, 100000) := by
  obtain ⟨w, hw, h1, h2, h3, _h4, _h5⟩ := claim_C9_cuenta_nueva_limpia [] ("111")
    ("Ana") ("Diaz") ("2000-01-01") 25 ("F") ("S") ("ana@mail.com") ("ana") ("1234")
    100000 ("2024-01-01 10:00:00") (by decide) (by decide) (by decide)
  rw [hw]
  simp [h1, h2, h3]

/-- Witness for C10: an account with capital 20000 and debt 400000 pays
100000 — far more than its capital — and the repayment still goes through,
touching nothing but debt, loan balance and the log. -/
theorem claim_C10_testigo :
    (buscar (abonar_prestamo ("2024-01-02 09:00:00")
        [(("111" : String), cuentaEjemplo ("111") 20000 400000 400000 [])] ("111")
        ("100000")) ("111")).map
        (fun w => (w.saldo_capital, w.deuda, w.cedula, w.nombre, w.apellidos,
          w.fecha_nacimiento, w.edad, w.genero, w.estado_civil, w.email,
          w.fecha_apertura, w.usuario, w.clave, w.operaciones.length))
      = some ((cuentaEjemplo ("111") 20000 400000 400000 []).saldo_capital
            + max 0 (100000 - (cuentaEjemplo ("111") 20000 400000 400000 []).deuda),
          max 0 ((cuentaEjemplo ("111") 20000 400000 400000 []).deuda - 100000),
          (cuentaEjemplo ("111") 20000 400000 400000 []).cedula,
          (cuentaEjemplo ("111") 20000 400000 400000 []).nombre,
          (cuentaEjemplo ("111") 20000 400000 400000 []).apellidos,
          (cuentaEjemplo ("111") 20000 400000 400000 []).fecha_nacimiento,
          (cuentaEjemplo ("111") 20000 400000 400000 []).edad,
          (cuentaEjemplo ("111") 20000 400000 400000 []).genero,
          (cuentaEjemplo ("111") 20000 400000 400000 []).estado_civil,
          (cuentaEjemplo ("111") 20000 400000 400000 []).email,
          (cuentaEjemplo ("111") 20000 400000 400000 []).fecha_apertura,
          (cuentaEjemplo ("111") 20000 400000 400000 []).usuario,
          (cuentaEjemplo ("111") 20000 400000 400000 []).clave,
          (cuentaEjemplo ("111") 20000 400000 400000 []).operaciones.length + 1) :=
  claim_C10_abono_no_usa_capital ("2024-01-02 09:00:00")
    [(("111" : String), cuentaEjemplo ("111") 20000 400000 400000 [])] ("111")
    ("100000") (cuentaEjemplo ("111") 20000 400000 400000 []) 100000
    (by decide) (by decide) (by decide) (by decide) (by decide)

end Cajero
